import Mathlib

/-!
Verification of the qdrant-mcp-server tool layer
(`tools/collections.py`, `tools/points.py`, `tools/search.py`, `tools/admin.py`).

The development shallowly embeds the Python tool functions.  Python dynamic
values become `PyVal`; the backend (the qdrant client plus the two raw HTTP
probes) is an abstract step function `Step σ` that receives each issued call
(`BCall`) and answers with a response (`BResp`) or a raised error (`PyExc`);
the tool functions run in the monad `ToolM σ`, which threads backend state, a
trace of issued backend calls, and Python exceptions.  Wall-clock reads
(`time.time()`, `datetime.utcnow()`) are abstracted as constants, and float
values are represented as rationals; no claim depends on either.
-/

/-- Python dynamic values (the subset flowing through the tool layer). -/
inductive PyVal where
  | none
  | bool (b : Bool)
  | int (n : Int)
  | float (q : Rat)
  | str (s : String)
  | list (xs : List PyVal)
  | dict (kvs : List (String × PyVal))

/-- Python truthiness for the values of `PyVal`. -/
def pyTruthy : PyVal → Bool
  | .none => false
  | .bool b => b
  | .int n => n != 0
  | .float q => q != 0
  | .str s => s != ""
  | .list xs => !xs.isEmpty
  | .dict kvs => !kvs.isEmpty

/-- `k in d` on a Python dict (association list, first binding wins). -/
def dictHas (kvs : List (String × PyVal)) (k : String) : Bool :=
  (kvs.lookup k).isSome

/-- `d[k]` on a Python dict, as an `Option`. -/
def dictGet (kvs : List (String × PyVal)) (k : String) : Option PyVal :=
  kvs.lookup k

/-- `d.get(k, default)` on a Python dict. -/
def dictGetD (kvs : List (String × PyVal)) (k : String) (dflt : PyVal) : PyVal :=
  (kvs.lookup k).getD dflt

/-- `d[k] = v` on a Python dict: replace the first binding of `k`, else append. -/
def dictSet (kvs : List (String × PyVal)) (k : String) (v : PyVal) :
    List (String × PyVal) :=
  match kvs with
  | [] => [(k, v)]
  | (k0, v0) :: rest =>
    if k0 = k then (k0, v) :: rest else (k0, v0) :: dictSet rest k v

/-- Model of Python `str()` on `PyVal`.  Scalars are rendered faithfully;
the container renderings are a deterministic stand-in for Python `repr`
(ids in this layer are strings, for which `str` is the identity). -/
def pyStr : PyVal → String
  | .none => "None"
  | .bool b => if b then "True" else "False"
  | .int n => toString n
  | .float q => toString q
  | .str s => s
  | .list _ => "<list>"
  | .dict _ => "<dict>"

/-- A qdrant point identifier: unsigned integer or UUID string. -/
inductive PId where
  | int (n : Int)
  | str (s : String)
deriving DecidableEq, Repr

/-- Python `str()` of a point id. -/
def pidStr : PId → String
  | .int n => toString n
  | .str s => s

/-- Python truthiness of a point id (used by `if next_offset`). -/
def pidTruthy : PId → Bool
  | .int n => n != 0
  | .str s => s != ""

/-- A vector as accepted by the backend client: a bare dense vector or a
mapping of named vectors. -/
inductive VecVal where
  | dense (v : List Rat)
  | named (vs : List (String × List Rat))
deriving DecidableEq, Repr

/-- Model of `qdrant_client.models.Filter`: the recognized clause fields.
The real object is a pydantic model of the external client library; only
its constructor success/failure and identity-preservation matter here. -/
structure QFilter where
  must : Option PyVal
  should : Option PyVal
  must_not : Option PyVal

/-- A condition value acceptable to the filter model: `None` or a list of
dicts (the client validates clause values as condition lists). -/
def condOk : Option PyVal → Bool
  | Option.none => true
  | some .none => true
  | some (.list xs) => xs.all fun v => match v with | .dict _ => true | _ => false
  | some _ => false

/-- Model of `qmodels.Filter(**kwargs)`: validates the clause values of the
recognized fields (`must`, `should`, `must_not`); other keys are ignored by
the pydantic constructor.  Returns the validation error message on failure. -/
def qFilterOfKwargs (kvs : List (String × PyVal)) : Except String QFilter :=
  let m := dictGet kvs "must"
  let s := dictGet kvs "should"
  let mn := dictGet kvs "must_not"
  if condOk m && condOk s && condOk mn then
    .ok ⟨m, s, mn⟩
  else
    .error "validation error for Filter"

/-- The backend distance metrics (`qmodels.Distance`). -/
inductive Distance where
  | cosine
  | euclid
  | dot
deriving DecidableEq, Repr

/-- Model of Python `str.lower()` (ASCII case folding; the three distance
keys are pure ASCII). -/
def pyLower (s : String) : String :=
  String.mk (s.data.map Char.toLower)

/-- `distance_map` from `create_collection`. -/
def distance_map : List (String × Distance) :=
  [("cosine", .cosine), ("euclid", .euclid), ("dot", .dot)]

/-- `distance_map.get(distance.lower(), qmodels.Distance.COSINE)`. -/
def distanceEnumOf (distance : String) : Distance :=
  ((distance_map).lookup (pyLower distance)).getD .cosine

/-- Vector-slot parameters sent on collection creation (`qmodels.VectorParams`). -/
structure VecParamsOut where
  size : Int
  distance : Distance
  on_disk : Bool
deriving DecidableEq, Repr

/-- Sparse-slot parameters sent on collection creation. -/
structure SparseOut where
  on_disk : Bool
deriving DecidableEq, Repr

/-- `qmodels.HnswConfigDiff`. -/
structure HnswDiff where
  m : Option Int
  ef_construct : Option Int
deriving DecidableEq, Repr

/-- `qmodels.OptimizersConfigDiff`. -/
structure OptimDiff where
  indexing_threshold : Option Int
  flush_interval_sec : Option Int
deriving DecidableEq, Repr

/-- A points selector for deletion: by ids or by filter. -/
inductive PSel where
  | ids (points : List String)
  | filt (filter : QFilter)

/-- One entry of a batched search request (`qmodels.SearchRequest`). -/
structure SearchReq where
  vector_name : String
  vector : List Rat
  limit : Int
  score_threshold : Option Rat
  filter : Option QFilter
  with_payload : Bool
  with_vector : Bool

/-- A point as handed to the backend `upsert` (`qmodels.PointStruct`). -/
structure QPoint where
  id : String
  vector : VecVal
  payload : List (String × PyVal)

/-- A stored point as returned by backend reads. -/
structure StoredPoint where
  id : PId
  payload : Option (List (String × PyVal))
  vector : Option VecVal

/-- A scored point as returned by search / recommend. -/
structure ScoredPoint where
  id : PId
  score : Rat
  payload : Option (List (String × PyVal))
  vector : Option VecVal

/-- Snapshot description returned by the backend. -/
structure SnapInfo where
  name : String
  size : Option Int
  creation_time : Option String
deriving DecidableEq, Repr

/-- Per-slot vector parameters as reported by `get_collection`. -/
structure VecParamsInfo where
  size : Int
  distance : Option String
  on_disk : Option Bool
deriving DecidableEq, Repr

/-- `info.config.params.vectors`: a single unnamed slot or named slots. -/
inductive VectorsCfg where
  | single (p : VecParamsInfo)
  | named (ps : List (String × VecParamsInfo))
deriving DecidableEq, Repr

/-- HNSW configuration as reported by `get_collection`. -/
structure HnswInfo where
  m : Option Int
  ef_construct : Option Int
  full_scan_threshold : Option Int
deriving DecidableEq, Repr

/-- Collection description as returned by `client.get_collection`.
`optimizer_status` is doubly optional, mirroring
`info.optimizer_status and info.optimizer_status.status`. -/
structure CollInfo where
  status : Option String
  points_count : Option Int
  vectors_count : Option Int
  indexed_vectors_count : Option Int
  segments_count : Option Int
  vectors : VectorsCfg
  hnsw_config : Option HnswInfo
  optimizer_status : Option (Option String)
  payload_schema : List (String × Option String)
deriving DecidableEq, Repr

/-- The calls this layer can issue to the outside world (backend client
calls, the two raw HTTP probes, and the polling sleep). -/
inductive BCall where
  | getCollections
  | getCollection (name : String)
  | createCollection (name : String) (vectors : List (String × VecParamsOut))
      (sparse : Option (List (String × SparseOut))) (hnsw : HnswDiff)
  | deleteCollection (name : String)
  | updateCollection (name : String) (hnsw : Option HnswDiff) (optim : Option OptimDiff)
  | countPoints (collection : String) (filter : Option QFilter) (exact : Bool)
  | retrieve (collection : String) (ids : List String) (with_payload with_vector : Bool)
  | scroll (collection : String) (limit : Int) (offset : Option String)
      (filter : Option QFilter) (with_payload with_vector : Bool)
  | upsert (collection : String) (points : List QPoint) (wait : Bool)
  | deletePoints (collection : String) (selector : Option PSel) (wait : Bool)
  | search (collection : String) (vector_name : String) (vector : List Rat) (limit : Int)
      (score_threshold : Option Rat) (filter : Option QFilter) (with_payload with_vector : Bool)
  | searchBatch (collection : String) (requests : List SearchReq)
  | recommend (collection : String) (positive negative : List String) (limit : Int)
      (score_threshold : Option Rat) (filter : Option QFilter) (usingVec : String)
      (with_payload : Bool)
  | createSnapshot (collection : String) (wait : Bool)
  | listSnapshots (collection : String)
  | httpGet (url : String) (timeout : Nat)
  | sleep (secs : Nat)

/-- Responses the outside world can return for issued calls. -/
inductive BResp where
  | ack
  | collections (names : List String)
  | collInfo (info : CollInfo)
  | countR (n : Int)
  | pointsR (ps : List StoredPoint)
  | scrollR (ps : List StoredPoint) (next : Option PId)
  | scoredR (ps : List ScoredPoint)
  | scoredBatchR (pss : List (List ScoredPoint))
  | snapshotR (s : Option SnapInfo)
  | snapshotsR (ss : List SnapInfo)
  | httpR (code : Nat) (body : List (String × PyVal))

/-- Python exceptions observable in this layer: the client's
`UnexpectedResponse` (with status code) and any other `Exception`
(carrying its `str()`). -/
inductive PyExc where
  | unexpectedResponse (status_code : Nat) (msg : String)
  | exc (msg : String)
deriving DecidableEq, Repr

/-- Python `str(e)` of an exception. -/
def pyExcStr : PyExc → String
  | .unexpectedResponse _ m => m
  | .exc m => m

/-- The result envelope: `ToolResponse` (status `"success"`, a data payload)
or `ToolError` (status `"error"`, a message). -/
inductive REnv where
  | success (data : PyVal)
  | error (msg : String)

/-- The `status` field of the envelope models
(`"success"` default on `ToolResponse`, `"error"` default on `ToolError`). -/
def REnv.status : REnv → String
  | .success _ => "success"
  | .error _ => "error"

/-- Backend behavior: how the outside world answers each issued call,
possibly changing its own state `σ` or raising. -/
def Step (σ : Type) := σ → BCall → Except PyExc (BResp × σ)

/-- State threaded through a tool invocation: the backend state and the
trace of calls issued so far. -/
structure ToolSt (σ : Type) where
  backend : σ
  trace : List BCall

/-- The tool monad: backend behavior in, state/trace threaded, Python
exceptions short-circuiting. -/
def ToolM (σ : Type) (α : Type) := Step σ → ToolSt σ → Except PyExc α × ToolSt σ

instance : Monad (ToolM σ) where
  pure a := fun _ s => (.ok a, s)
  bind x f := fun step s =>
    match x step s with
    | (.ok a, s1) => f a step s1
    | (.error e, s1) => (.error e, s1)

/-- Raise a Python exception. -/
def throwT (e : PyExc) : ToolM σ α := fun _ s => (.error e, s)

/-- Issue a call to the outside world, recording it in the trace. -/
def callB (c : BCall) : ToolM σ BResp := fun step s =>
  match step s.backend c with
  | .ok (r, b) => (.ok r, ⟨b, s.trace ++ [c]⟩)
  | .error e => (.error e, ⟨s.backend, s.trace ++ [c]⟩)

/-- An inner `try/except` block (state changes before the raise persist). -/
def tcatch (x : ToolM σ α) (h : PyExc → ToolM σ α) : ToolM σ α := fun step s =>
  match x step s with
  | (.ok a, s1) => (.ok a, s1)
  | (.error e, s1) => h e step s1

/-- The outermost `try/except` of every tool function: every raised
exception is converted to an envelope by the handler. -/
def guarded (h : PyExc → REnv) (body : ToolM σ REnv) : ToolM σ REnv := fun step s =>
  match body step s with
  | (.ok r, s1) => (.ok r, s1)
  | (.error e, s1) => (.ok (h e), s1)

/-- The ubiquitous handler pair
`except UnexpectedResponse as e: if e.status_code == 404: ...` followed by
a generic `except Exception`. -/
def handler404 (notFound : String) (generic : String → String) : PyExc → REnv
  | .unexpectedResponse 404 _ => .error notFound
  | .unexpectedResponse _ m => .error (generic m)
  | .exc m => .error (generic m)

/-- A generic-only `except Exception` handler. -/
def handlerGeneric (generic : String → String) : PyExc → REnv
  | e => .error (generic (pyExcStr e))

/-! ## Identifier normalization (`_to_uuid` in `tools/points.py`)

`_to_uuid` calls the standard library: `uuid.UUID(str(id_str))` to test
whether the string already is a UUID, and `uuid.uuid5(uuid.NAMESPACE_DNS,
str(id_str))` to derive a deterministic name-based identifier otherwise.
Both library functions are modelled bit-for-bit below (CPython 3 semantics):
the `UUID` constructor's string cleaning (`urn:`/`uuid:` removal, brace
strip, hyphen removal, 32-character check, base-16 parse), and `uuid5` as
SHA-1 over the namespace bytes plus the UTF-8 name with the version/variant
bits forced. -/

/-- Does `pat` lead the list (`startswith`)? -/
def leadsWith : List Char → List Char → Bool
  | [], _ => true
  | _ :: _, [] => false
  | p :: ps, c :: cs => p == c && leadsWith ps cs

/-- Python `str.replace(pat, "")` for a non-empty `pat`: remove every
(left-to-right, non-overlapping) occurrence.  Structural fuel recursion
(each step consumes at least one character, and the fuel starts at the
list length) so applications reduce by computation inside the kernel. -/
def pyReplaceGo (pat : List Char) : Nat → List Char → List Char
  | _, [] => []
  | 0, l => l
  | fuel + 1, c :: rest =>
    if leadsWith pat (c :: rest) && !pat.isEmpty then
      pyReplaceGo pat fuel (List.drop (pat.length - 1) rest)
    else c :: pyReplaceGo pat fuel rest

/-- `str.replace(pat, "")` with the fuel instantiated. -/
def pyReplace (pat l : List Char) : List Char := pyReplaceGo pat l.length l

/-- Python `str.strip("{}")`: remove leading and trailing braces. -/
def stripBraces (l : List Char) : List Char :=
  ((l.dropWhile fun c => c == '{' || c == '}').reverse.dropWhile
    fun c => c == '{' || c == '}').reverse

/-- Hexadecimal digit test, as accepted by `int(_, 16)`. -/
def isHexDig (c : Char) : Bool :=
  ('0' ≤ c && c ≤ '9') || ('a' ≤ c && c ≤ 'f') || ('A' ≤ c && c ≤ 'F')

/-- Value of a hexadecimal digit. -/
def hexVal (c : Char) : Nat :=
  if '0' ≤ c && c ≤ '9' then c.toNat - 48
  else if 'a' ≤ c && c ≤ 'f' then c.toNat - 87
  else c.toNat - 55

/-- Digit run of `int(_, 16)`: hexadecimal digits with single underscores
allowed between digits.  `seen` records whether the previous character was
a digit (and hence whether at least one digit was read). -/
def hexRun : List Char → Nat → Bool → Option Nat
  | [], acc, true => some acc
  | [], _, false => Option.none
  | '_' :: rest, acc, true => hexRunAfterSep rest acc
  | c :: rest, acc, _ =>
    if isHexDig c then hexRun rest (acc * 16 + hexVal c) true else Option.none
where
  /-- After an underscore the next character must be a digit. -/
  hexRunAfterSep : List Char → Nat → Option Nat
  | c :: rest, acc =>
    if isHexDig c then hexRun rest (acc * 16 + hexVal c) true else Option.none
  | [], _ => Option.none

/-- Python whitespace characters stripped by `int()`. -/
def isPySpace (c : Char) : Bool :=
  c == ' ' || c == '\t' || c == '\n' || c == '\x0b' || c == '\x0c' || c == '\r'

/-- Optional sign of an integer literal. -/
def pySign : List Char → Bool × List Char
  | '+' :: rest => (false, rest)
  | '-' :: rest => (true, rest)
  | rest => (false, rest)

/-- Digit part of `int(s, 16)` after the sign: an optional `0x`/`0X`
prefix (an underscore may follow the prefix), then at least one
hexadecimal digit with single underscores between digits. -/
def pyHexBody : List Char → Option Nat
  | '0' :: x :: rest =>
    if x == 'x' || x == 'X' then
      match rest with
      | '_' :: rest2 => hexRun.hexRunAfterSep rest2 0
      | _ => hexRun rest 0 false
    else hexRun ('0' :: x :: rest) 0 false
  | l => hexRun l 0 false

/-- Model of CPython `int(s, 16)` on a character list: strip whitespace,
optional sign, then the digit part. -/
def pyIntHex (l : List Char) : Option Int :=
  let l := (l.dropWhile isPySpace).reverse.dropWhile isPySpace |>.reverse
  let s := pySign l
  (pyHexBody s.2).map fun n => if s.1 then -(n : Int) else (n : Int)

/-- A parsed 128-bit UUID value. -/
structure PyUUID where
  val : Nat
deriving DecidableEq, Repr

/-- Model of the CPython `uuid.UUID(hex_string)` constructor:
`hex.replace('urn:', '').replace('uuid:', '')`, `strip('{}')`,
`replace('-', '')`, a 32-character length check, `int(hex, 16)`, and the
128-bit range check. -/
def pyUUID (s : String) : Except String PyUUID :=
  let hex := pyReplace "uuid:".data (pyReplace "urn:".data s.data)
  let hex := stripBraces hex
  let hex := pyReplace ['-'] hex
  if hex.length ≠ 32 then
    .error "badly formed hexadecimal UUID string"
  else
    match pyIntHex hex with
    | Option.none => .error "invalid literal for int() with base 16"
    | some n =>
      if 0 ≤ n ∧ n < (2 : Int) ^ 128 then .ok ⟨n.toNat⟩
      else .error "int is out of range (need a 128-bit value)"

/-- Whether a string parses as a backend-native (UUID-formatted) identifier. -/
def parsesAsUUID (s : String) : Bool :=
  (pyUUID s).toBool

/-- UTF-8 encoding of one code point, as byte values. -/
def utf8EncodeCharNat (n : Nat) : List Nat :=
  if n < 0x80 then [n]
  else if n < 0x800 then
    [0xC0 ||| (n >>> 6), 0x80 ||| (n &&& 0x3F)]
  else if n < 0x10000 then
    [0xE0 ||| (n >>> 12), 0x80 ||| ((n >>> 6) &&& 0x3F), 0x80 ||| (n &&& 0x3F)]
  else
    [0xF0 ||| (n >>> 18), 0x80 ||| ((n >>> 12) &&& 0x3F),
     0x80 ||| ((n >>> 6) &&& 0x3F), 0x80 ||| (n &&& 0x3F)]

/-- UTF-8 bytes of a string (`name.encode('utf-8')`). -/
def utf8Bytes (s : String) : List Nat :=
  s.data.foldr (fun c acc => utf8EncodeCharNat c.toNat ++ acc) []

/-- Truncate to a 32-bit word. -/
def w32 (n : Nat) : Nat := n % 4294967296

/-- 32-bit left rotation. -/
def rotl (k n : Nat) : Nat := w32 ((n <<< k) ||| (n >>> (32 - k)))

/-- SHA-1 message padding: `0x80`, zeros to 56 mod 64, 64-bit bit length. -/
def sha1Pad (msg : List Nat) : List Nat :=
  let len := msg.length
  let padZeros := (119 - len % 64) % 64
  msg ++ [0x80] ++ List.replicate padZeros 0 ++
    ((List.range 8).map fun i => (len * 8) >>> ((7 - i) * 8) % 18446744073709551616 % 256)

/-- Big-endian 32-bit words of a byte list. -/
def toWords : List Nat → List Nat
  | b0 :: b1 :: b2 :: b3 :: rest =>
    ((((b0 <<< 8) ||| b1) <<< 8 ||| b2) <<< 8 ||| b3) :: toWords rest
  | _ => []

/-- Extend the 16 schedule words to 80. -/
def extendWords (ws : List Nat) : List Nat :=
  (List.range 64).foldl
    (fun acc _ =>
      let i := acc.length
      acc ++ [rotl 1 ((acc.getD (i - 3) 0) ^^^ (acc.getD (i - 8) 0) ^^^
                      (acc.getD (i - 14) 0) ^^^ (acc.getD (i - 16) 0))])
    ws

/-- SHA-1 round function. -/
def shaF (t b c d : Nat) : Nat :=
  if t < 20 then (b &&& c) ||| ((b ^^^ 4294967295) &&& d)
  else if t < 40 then b ^^^ c ^^^ d
  else if t < 60 then (b &&& c) ||| (b &&& d) ||| (c &&& d)
  else b ^^^ c ^^^ d

/-- SHA-1 round constants. -/
def shaK (t : Nat) : Nat :=
  if t < 20 then 0x5A827999
  else if t < 40 then 0x6ED9EBA1
  else if t < 60 then 0x8F1BBCDC
  else 0xCA62C1D6

/-- One SHA-1 chunk compression over 80 scheduled words. -/
def sha1Chunk (h : Nat × Nat × Nat × Nat × Nat) (chunk : List Nat) :
    Nat × Nat × Nat × Nat × Nat :=
  let ws := extendWords (toWords chunk)
  let (h0, h1, h2, h3, h4) := h
  let st := (List.range 80).foldl
    (fun (st : Nat × Nat × Nat × Nat × Nat) t =>
      let (a, b, c, d, e) := st
      let tmp := w32 (rotl 5 a + shaF t b c d + e + shaK t + ws.getD t 0)
      (tmp, a, rotl 30 b, c, d))
    (h0, h1, h2, h3, h4)
  let (a, b, c, d, e) := st
  (w32 (h0 + a), w32 (h1 + b), w32 (h2 + c), w32 (h3 + d), w32 (h4 + e))

/-- Split into 64-byte chunks (structural fuel recursion: each step
consumes at least one byte). -/
def chunks64Go : Nat → List Nat → List (List Nat)
  | _, [] => []
  | 0, l => [l]
  | fuel + 1, c :: rest => (c :: rest).take 64 :: chunks64Go fuel ((c :: rest).drop 64)

/-- Split into 64-byte chunks with the fuel instantiated. -/
def chunks64 (l : List Nat) : List (List Nat) := chunks64Go l.length l

/-- Big-endian bytes of one 32-bit word. -/
def wordBytes (n : Nat) : List Nat :=
  [n >>> 24 % 256, n >>> 16 % 256, n >>> 8 % 256, n % 256]

/-- The SHA-1 digest (20 bytes) of a byte list. -/
def sha1 (msg : List Nat) : List Nat :=
  let (h0, h1, h2, h3, h4) :=
    (chunks64 (sha1Pad msg)).foldl sha1Chunk
      (0x67452301, 0xEFCDAB89, 0x98BADCFE, 0x10325476, 0xC3D2E1F0)
  wordBytes h0 ++ wordBytes h1 ++ wordBytes h2 ++ wordBytes h3 ++ wordBytes h4

/-- The 16 bytes of `uuid.NAMESPACE_DNS`
(`6ba7b810-9dad-11d1-80b4-00c04fd430c8`). -/
def nsDNSBytes : List Nat :=
  [0x6b, 0xa7, 0xb8, 0x10, 0x9d, 0xad, 0x11, 0xd1,
   0x80, 0xb4, 0x00, 0xc0, 0x4f, 0xd4, 0x30, 0xc8]

/-- Lowercase hexadecimal digit character. -/
def hexCharL (n : Nat) : Char :=
  if n < 10 then Char.ofNat (48 + n) else Char.ofNat (87 + n)

/-- Two lowercase hexadecimal characters of a byte. -/
def byteHex (b : Nat) : List Char :=
  [hexCharL (b / 16 % 16), hexCharL (b % 16)]

/-- Hexadecimal rendering of a byte list. -/
def bytesHex (bs : List Nat) : List Char :=
  bs.foldr (fun b acc => byteHex b ++ acc) []

/-- `str()` of a UUID given its 16 bytes: 8-4-4-4-12 lowercase hex groups. -/
def uuidFormat (bs : List Nat) : String :=
  String.mk (bytesHex (bs.take 4) ++ ['-'] ++ bytesHex ((bs.drop 4).take 2) ++ ['-'] ++
    bytesHex ((bs.drop 6).take 2) ++ ['-'] ++ bytesHex ((bs.drop 8).take 2) ++ ['-'] ++
    bytesHex (bs.drop 10))

/-- Force the RFC 4122 version-5 and variant bits onto 16 digest bytes. -/
def setVersion5 (bs : List Nat) : List Nat :=
  bs.mapIdx fun i b =>
    if i == 6 then (b &&& 0x0F) ||| 0x50
    else if i == 8 then (b &&& 0x3F) ||| 0x80
    else b

/-- Model of `str(uuid.uuid5(uuid.NAMESPACE_DNS, name))`: SHA-1 of the
namespace bytes plus the UTF-8 name, truncated to 16 bytes, version and
variant forced, rendered in the canonical hyphenated form. -/
def uuid5DNS (name : String) : String :=
  uuidFormat (setVersion5 ((sha1 (nsDNSBytes ++ utf8Bytes name)).take 16))

/-- `_to_uuid` from `tools/points.py`: try `uuid.UUID(str(id_str))` and
return the string unchanged if it parses; on `ValueError` return the
deterministic `uuid5` of the string under `NAMESPACE_DNS`. -/
def to_uuid (id_str : String) : String :=
  match pyUUID id_str with
  | .ok _ => id_str
  | .error _ => uuid5DNS id_str

/-! ## Shared response-shaping helpers

`get_client()` only constructs the lazily-shared client handle and performs
no backend call; it is modelled as a no-op.  The `expect…` helpers express
the Python code's static assumption about the client's return type; a
shape mismatch surfaces as a raised exception, caught by the outer
handler like any other fault. -/

/-- Expect a collections listing. -/
def expectCollections : BResp → ToolM σ (List String)
  | .collections ns => pure ns
  | _ => throwT (.exc "unexpected backend response shape")

/-- Expect a collection description. -/
def expectCollInfo : BResp → ToolM σ CollInfo
  | .collInfo i => pure i
  | _ => throwT (.exc "unexpected backend response shape")

/-- Expect a count result. -/
def expectCount : BResp → ToolM σ Int
  | .countR n => pure n
  | _ => throwT (.exc "unexpected backend response shape")

/-- Expect a retrieved-points result. -/
def expectPoints : BResp → ToolM σ (List StoredPoint)
  | .pointsR ps => pure ps
  | _ => throwT (.exc "unexpected backend response shape")

/-- Expect a scroll page with its next cursor. -/
def expectScroll : BResp → ToolM σ (List StoredPoint × Option PId)
  | .scrollR ps next => pure (ps, next)
  | _ => throwT (.exc "unexpected backend response shape")

/-- Expect a scored-points result. -/
def expectScored : BResp → ToolM σ (List ScoredPoint)
  | .scoredR ps => pure ps
  | _ => throwT (.exc "unexpected backend response shape")

/-- Expect a batched scored result. -/
def expectScoredBatch : BResp → ToolM σ (List (List ScoredPoint))
  | .scoredBatchR pss => pure pss
  | _ => throwT (.exc "unexpected backend response shape")

/-- Expect a snapshot-creation result. -/
def expectSnapshot : BResp → ToolM σ (Option SnapInfo)
  | .snapshotR s => pure s
  | _ => throwT (.exc "unexpected backend response shape")

/-- Expect a snapshot listing. -/
def expectSnapshots : BResp → ToolM σ (List SnapInfo)
  | .snapshotsR ss => pure ss
  | _ => throwT (.exc "unexpected backend response shape")

/-- Expect a raw HTTP response. -/
def expectHttp : BResp → ToolM σ (Nat × List (String × PyVal))
  | .httpR code body => pure (code, body)
  | _ => throwT (.exc "unexpected backend response shape")

/-- The repeated filter-argument pattern:
`if filter:` (truthiness) then `qmodels.Filter(**filter)`, whose
validation failure produces the early `Invalid filter format` return. -/
def buildFilter (filter : Option (List (String × PyVal))) :
    Except String (Option QFilter) :=
  match filter with
  | Option.none => .ok Option.none
  | some f =>
    if f.isEmpty then .ok Option.none
    else (qFilterOfKwargs f).map some

/-- Truthiness of `point.payload` (`None` and `{}` are falsy). -/
def optPayloadTruthy : Option (List (String × PyVal)) → Bool
  | Option.none => false
  | some kvs => !kvs.isEmpty

/-- Truthiness of `point.vector` (`None`, `[]` and `{}` are falsy). -/
def optVecTruthy : Option VecVal → Bool
  | Option.none => false
  | some (.dense v) => !v.isEmpty
  | some (.named vs) => !vs.isEmpty

/-- `point.vector if isinstance(point.vector, list) else dict(point.vector)`. -/
def vecToPy : VecVal → PyVal
  | .dense v => .list (v.map PyVal.float)
  | .named vs => .dict (vs.map fun p => (p.1, PyVal.list (p.2.map PyVal.float)))

/-- The per-point response shaping shared by `get_points` and
`scroll_points`: the id always, payload and vector only when requested
and truthy. -/
def shapePoint (with_payload with_vector : Bool) (point : StoredPoint) : PyVal :=
  let pd := [("id", PyVal.str (pidStr point.id))]
  let pd := if with_payload && optPayloadTruthy point.payload then
      pd ++ [("payload", PyVal.dict (point.payload.getD []))] else pd
  let pd := if with_vector && optVecTruthy point.vector then
      pd ++ [("vector", vecToPy ((point.vector).getD (.dense [])))] else pd
  PyVal.dict pd

/-- Render an optional integer field. -/
def optIntPy : Option Int → PyVal
  | Option.none => .none
  | some n => .int n

/-! ## Point operations (`tools/points.py`) -/

/-- `count_points`: count with optional filter; `exact` is forwarded as a
backend hint. -/
def count_points (collection : String) (exact : Bool)
    (filter : Option (List (String × PyVal))) : ToolM σ REnv :=
  guarded
    (handler404 s!"Collection '{collection}' not found"
      fun m => s!"Failed to count points: {m}")
    (do
      match buildFilter filter with
      | .error e => return .error s!"Invalid filter format: {e}"
      | .ok qdrant_filter =>
        let r ← callB (.countPoints collection qdrant_filter exact)
        let n ← expectCount r
        return .success (.dict [("collection", .str collection),
          ("count", .int n), ("exact", .bool exact)]))

/-- `get_points`: retrieve by ids, ids normalized through `_to_uuid`. -/
def get_points (collection : String) (ids : List String)
    (with_payload with_vector : Bool) : ToolM σ REnv :=
  guarded
    (handler404 s!"Collection '{collection}' not found"
      fun m => s!"Failed to get points: {m}")
    (do
      let uuid_ids := ids.map to_uuid
      let r ← callB (.retrieve collection uuid_ids with_payload with_vector)
      let result ← expectPoints r
      let points := result.map (shapePoint with_payload with_vector)
      return .success (.dict [("collection", .str collection),
        ("points", .list points),
        ("found_count", .int points.length),
        ("requested_count", .int ids.length)]))

/-- `scroll_points`: one page plus pagination info.  Note the source
renders `next_offset` under truthiness (`if next_offset`) but computes
`has_more` from `is not None`. -/
def scroll_points (collection : String) (limit : Int) (offset : Option String)
    (filter : Option (List (String × PyVal)))
    (with_payload with_vector : Bool) : ToolM σ REnv :=
  guarded
    (handler404 s!"Collection '{collection}' not found"
      fun m => s!"Failed to scroll points: {m}")
    (do
      match buildFilter filter with
      | .error e => return .error s!"Invalid filter format: {e}"
      | .ok qdrant_filter =>
        let r ← callB (.scroll collection limit offset qdrant_filter
          with_payload with_vector)
        let pr ← expectScroll r
        let points := pr.1.map (shapePoint with_payload with_vector)
        return .success (.dict [("collection", .str collection),
          ("points", .list points),
          ("count", .int points.length),
          ("next_offset", match pr.2 with
            | some c => if pidTruthy c then .str (pidStr c) else .none
            | Option.none => .none),
          ("has_more", .bool pr.2.isSome)]))

/-- Outcome of a request-building loop with early returns (`upsert_points`,
`search_batch`): an early envelope return, a raised exception, or success. -/
inductive EarlyErr where
  | envl (r : REnv)
  | raised (e : PyExc)

/-- Floats list validation (`List[float]`; ints coerce). -/
def pyFloats : List PyVal → Option (List Rat)
  | [] => some []
  | .float q :: rest => (pyFloats rest).map (q :: ·)
  | .int n :: rest => (pyFloats rest).map ((n : Rat) :: ·)
  | _ => Option.none

/-- Named-vectors mapping validation. -/
def pyNamedVecs : List (String × PyVal) → Option (List (String × List Rat))
  | [] => some []
  | (k, .list xs) :: rest =>
    match pyFloats xs, pyNamedVecs rest with
    | some v, some vs => some ((k, v) :: vs)
    | _, _ => Option.none
  | _ => Option.none

/-- Vector validation of `qmodels.PointStruct` (a bare dense vector or a
mapping of named vectors; anything else fails validation). -/
def pyToVecVal : PyVal → Option VecVal
  | .list xs => (pyFloats xs).map .dense
  | .dict kvs => (pyNamedVecs kvs).map .named
  | _ => Option.none

/-- One iteration of the conversion loop in `upsert_points`: require the
`id` and `vector` keys (else the early whole-batch `ToolError`), wrap a
bare list vector as `{"text-dense": vector}`, take `payload` defaulting
to `{}` (item assignment on a non-dict raises), store the caller id under
`original_id`, and construct the `PointStruct`. -/
def buildQPoint1 (p : List (String × PyVal)) : Except EarlyErr QPoint :=
  if !dictHas p "id" || !dictHas p "vector" then
    .error (.envl (.error "Each point must have 'id' and 'vector' fields"))
  else
    let point_id := to_uuid (pyStr (dictGetD p "id" .none))
    let vector := dictGetD p "vector" .none
    let vector := match vector with
      | .dict _ => vector
      | .list _ => .dict [("text-dense", vector)]
      | _ => vector
    match dictGetD p "payload" (.dict []) with
    | .dict kvs =>
      let payload := dictSet kvs "original_id" (dictGetD p "id" .none)
      match pyToVecVal vector with
      | some v => .ok ⟨point_id, v, payload⟩
      | Option.none => .error (.raised (.exc "validation error for PointStruct"))
    | _ => .error (.raised (.exc "object does not support item assignment"))

/-- The conversion loop of `upsert_points` over the whole batch: the
first failing point aborts the loop (whole-batch rejection). -/
def buildQPoints : List (List (String × PyVal)) → Except EarlyErr (List QPoint)
  | [] => .ok []
  | p :: rest =>
    match buildQPoint1 p with
    | .error e => .error e
    | .ok qp => (buildQPoints rest).map fun qs => qp :: qs

/-- `upsert_points`: convert the whole batch (any structural failure
rejects it before any write), then issue one backend upsert. -/
def upsert_points (collection : String) (points : List (List (String × PyVal)))
    (wait : Bool) : ToolM σ REnv :=
  guarded
    (handler404 s!"Collection '{collection}' not found"
      fun m => s!"Failed to upsert points: {m}")
    (do
      if points.isEmpty then
        return .error "No points provided"
      match buildQPoints points with
      | .error (.envl r) => return r
      | .error (.raised e) => throwT e
      | .ok qdrant_points =>
        let _ ← callB (.upsert collection qdrant_points wait)
        return .success (.dict [("collection", .str collection),
          ("upserted_count", .int qdrant_points.length),
          ("operation", .str "upsert")]))

/-- `delete_points`: requires `ids` or `filter` (`is None` test); a truthy
`ids` wins over `filter` (`if ids: ... elif filter: ...`); ids are
normalized through `_to_uuid`. -/
def delete_points (collection : String) (ids : Option (List String))
    (filter : Option (List (String × PyVal))) (wait : Bool) : ToolM σ REnv :=
  guarded
    (handler404 s!"Collection '{collection}' not found"
      fun m => s!"Failed to delete points: {m}")
    (do
      if ids.isNone && filter.isNone then
        return .error "Either 'ids' or 'filter' must be provided"
      let idsT := match ids with | some l => !l.isEmpty | Option.none => false
      let filterT := match filter with | some f => !f.isEmpty | Option.none => false
      let sel : Except REnv (Option PSel) :=
        if idsT then
          .ok (some (.ids ((ids.getD []).map to_uuid)))
        else if filterT then
          match qFilterOfKwargs (filter.getD []) with
          | .ok qf => .ok (some (.filt qf))
          | .error e => .error (.error s!"Invalid filter format: {e}")
        else .ok Option.none
      match sel with
      | .error r => return r
      | .ok points_selector =>
        let _ ← callB (.deletePoints collection points_selector wait)
        return .success (.dict [("collection", .str collection),
          ("operation", .str "delete"),
          ("deleted_by", .str (if idsT then "ids" else "filter")),
          ("ids_count", if idsT then .int (ids.getD []).length else .none)]))

/-! ## Collection management (`tools/collections.py`) -/

/-- The per-collection detail loop of `list_collections`: a failing detail
lookup degrades that entry to status `"unknown"` instead of aborting. -/
def listCollLoop : List String → ToolM σ (List PyVal)
  | [] => pure []
  | name :: rest => do
    let entry ← tcatch
      (do
        let r ← callB (.getCollection name)
        let info ← expectCollInfo r
        pure (PyVal.dict [("name", .str name),
          ("status", .str (info.status.getD "unknown")),
          ("points_count", optIntPy info.points_count),
          ("vectors_count", optIntPy info.vectors_count),
          ("indexed_vectors_count", optIntPy info.indexed_vectors_count),
          ("segments_count", optIntPy info.segments_count)]))
      (fun _ => pure (PyVal.dict [("name", .str name),
        ("status", .str "unknown"),
        ("points_count", .int 0)]))
    let tail ← listCollLoop rest
    pure (entry :: tail)

/-- `list_collections`: enumerate all collections with per-entry detail. -/
def list_collections : ToolM σ REnv :=
  guarded (handlerGeneric fun m => s!"Failed to list collections: {m}")
    (do
      let r ← callB .getCollections
      let names ← expectCollections r
      let collections ← listCollLoop names
      return .success (.dict [("collections", .list collections),
        ("total_count", .int collections.length)]))

/-- `create_collection`: pre-flight existence check, distance mapped
through `distance_map` with cosine default, then one backend create. -/
def create_collection (name : String) (vector_size : Int) (distance : String)
    (on_disk : Bool) (hnsw_m : Int) (hnsw_ef_construct : Int)
    (enable_sparse : Bool) : ToolM σ REnv :=
  guarded (handlerGeneric fun m => s!"Failed to create collection: {m}")
    (do
      let r ← callB .getCollections
      let names ← expectCollections r
      if names.contains name then
        return .error s!"Collection '{name}' already exists"
      let distance_enum := distanceEnumOf distance
      let vectors_config := [("text-dense",
        VecParamsOut.mk vector_size distance_enum on_disk)]
      let sparse_vectors_config :=
        if enable_sparse then some [("text-sparse", SparseOut.mk on_disk)]
        else Option.none
      let hnsw_config := HnswDiff.mk (some hnsw_m) (some hnsw_ef_construct)
      let _ ← callB (.createCollection name vectors_config sparse_vectors_config
        hnsw_config)
      return .success (.dict [
        ("message", .str s!"Collection '{name}' created successfully"),
        ("config", .dict [("name", .str name),
          ("vector_size", .int vector_size),
          ("distance", .str distance),
          ("on_disk", .bool on_disk),
          ("hnsw_m", .int hnsw_m),
          ("hnsw_ef_construct", .int hnsw_ef_construct),
          ("sparse_enabled", .bool enable_sparse)])]))

/-- `delete_collection`: the confirmation gate precedes everything; then
existence check, prior point count, and the backend delete. -/
def delete_collection (name : String) (confirm : Bool) : ToolM σ REnv :=
  guarded (handlerGeneric fun m => s!"Failed to delete collection: {m}")
    (do
      if !confirm then
        return .error "Deletion requires confirm=true to prevent accidental data loss"
      let r ← callB .getCollections
      let names ← expectCollections r
      if !(names.contains name) then
        return .error s!"Collection '{name}' does not exist"
      let ri ← callB (.getCollection name)
      let info ← expectCollInfo ri
      let points_count := info.points_count
      let _ ← callB (.deleteCollection name)
      return .success (.dict [
        ("message", .str s!"Collection '{name}' deleted successfully"),
        ("deleted_points", optIntPy points_count)]))

/-- `get_collection_info`: flatten the collection description. -/
def get_collection_info (name : String) : ToolM σ REnv :=
  guarded
    (handler404 s!"Collection '{name}' not found"
      fun m => s!"Failed to get collection info: {m}")
    (do
      let r ← callB (.getCollection name)
      let info ← expectCollInfo r
      let vectors_config : PyVal := match info.vectors with
        | .named ps => .dict (ps.map fun q => (q.1, PyVal.dict [
            ("size", .int q.2.size),
            ("distance", .str (q.2.distance.getD "unknown")),
            ("on_disk", match q.2.on_disk with
              | some b => .bool b
              | Option.none => .none)]))
        | .single p => .dict [("default", PyVal.dict [
            ("size", .int p.size),
            ("distance", .str (p.distance.getD "unknown"))])]
      let hnsw_config : PyVal := match info.hnsw_config with
        | some h => .dict [("m", optIntPy h.m),
            ("ef_construct", optIntPy h.ef_construct),
            ("full_scan_threshold", optIntPy h.full_scan_threshold)]
        | Option.none => .dict []
      return .success (.dict [("name", .str name),
        ("status", .str (info.status.getD "unknown")),
        ("points_count", optIntPy info.points_count),
        ("vectors_count", optIntPy info.vectors_count),
        ("indexed_vectors_count", optIntPy info.indexed_vectors_count),
        ("segments_count", optIntPy info.segments_count),
        ("vectors_config", vectors_config),
        ("hnsw_config", hnsw_config),
        ("optimizer_status", .str (match info.optimizer_status with
          | some (some s) => s
          | _ => "unknown")),
        ("payload_schema", .dict (info.payload_schema.map fun q =>
          (q.1, PyVal.str (q.2.getD "unknown"))))]))

/-- `update_collection`: configuration-diff update; supplying no field is
the `No update parameters provided` error. -/
def update_collection (name : String)
    (hnsw_m hnsw_ef_construct indexing_threshold flush_interval_sec : Option Int) :
    ToolM σ REnv :=
  guarded
    (handler404 s!"Collection '{name}' not found"
      fun m => s!"Failed to update collection: {m}")
    (do
      let hnsw_config :=
        if hnsw_m.isSome || hnsw_ef_construct.isSome then
          some (HnswDiff.mk hnsw_m hnsw_ef_construct)
        else Option.none
      let optimizers_config :=
        if indexing_threshold.isSome || flush_interval_sec.isSome then
          some (OptimDiff.mk indexing_threshold flush_interval_sec)
        else Option.none
      if hnsw_config.isNone && optimizers_config.isNone then
        return .error "No update parameters provided"
      let _ ← callB (.updateCollection name hnsw_config optimizers_config)
      return .success (.dict [
        ("message", .str s!"Collection '{name}' updated successfully"),
        ("updates", .dict [("hnsw_m", optIntPy hnsw_m),
          ("hnsw_ef_construct", optIntPy hnsw_ef_construct),
          ("indexing_threshold", optIntPy indexing_threshold),
          ("flush_interval_sec", optIntPy flush_interval_sec)])]))

/-! ## Search (`tools/search.py`) -/

/-- Scored-result shaping shared by the search tools (`search_batch` and
`recommend_points` never include vectors, matching `with_vector := false`). -/
def shapeScored (with_payload with_vector : Bool) (point : ScoredPoint) : PyVal :=
  let rda := [("id", PyVal.str (pidStr point.id)), ("score", PyVal.float point.score)]
  let rda := if with_payload && optPayloadTruthy point.payload then
      rda ++ [("payload", PyVal.dict (point.payload.getD []))] else rda
  let rda := if with_vector && optVecTruthy point.vector then
      rda ++ [("vector", vecToPy (point.vector.getD (.dense [])))] else rda
  PyVal.dict rda

/-- `search_vectors`: single similarity query against a named vector slot. -/
def search_vectors (collection : String) (vector : List Rat) (limit : Int)
    (score_threshold : Option Rat) (filter : Option (List (String × PyVal)))
    (vector_name : String) (with_payload with_vector : Bool) : ToolM σ REnv :=
  guarded
    (handler404 s!"Collection '{collection}' not found"
      fun m => s!"Failed to search: {m}")
    (do
      match buildFilter filter with
      | .error e => return .error s!"Invalid filter format: {e}"
      | .ok qdrant_filter =>
        let r ← callB (.search collection vector_name vector limit
          score_threshold qdrant_filter with_payload with_vector)
        let results ← expectScored r
        let search_results := results.map (shapeScored with_payload with_vector)
        return .success (.dict [("collection", .str collection),
          ("results", .list search_results),
          ("count", .int search_results.length),
          ("vector_name", .str vector_name),
          ("score_threshold", match score_threshold with
            | some q => .float q
            | Option.none => .none)]))

/-- The request-building loop of `search_batch`: a query without `vector`
is the early whole-batch envelope; the client-side validation of the
request fields (including an explicit `filter`) is not locally caught and
raises. -/
def buildSearchReqs (vector_name : String) (with_payload : Bool) :
    List (List (String × PyVal)) → Except EarlyErr (List SearchReq)
  | [] => .ok []
  | q :: rest =>
    if !dictHas q "vector" then
      .error (.envl (.error "Each query must have a 'vector' field"))
    else
      let vOk : Option (List Rat) := match dictGetD q "vector" .none with
        | .list xs => pyFloats xs
        | _ => Option.none
      match vOk with
      | Option.none => .error (.raised (.exc "validation error for SearchRequest"))
      | some v =>
        match dictGetD q "limit" (.int 10) with
        | .int limit =>
          let thr : Except EarlyErr (Option Rat) :=
            match dictGet q "score_threshold" with
            | Option.none => .ok Option.none
            | some .none => .ok Option.none
            | some (.float f) => .ok (some f)
            | some (.int n) => .ok (some (n : Rat))
            | some _ => .error (.raised (.exc "validation error for SearchRequest"))
          match thr with
          | .error e => .error e
          | .ok score_threshold =>
            let fv := dictGetD q "filter" .none
            let filt : Except EarlyErr (Option QFilter) :=
              if pyTruthy fv then
                match fv with
                | .dict kvs =>
                  match qFilterOfKwargs kvs with
                  | .ok qf => .ok (some qf)
                  | .error e => .error (.raised (.exc e))
                | _ => .error (.raised (.exc "Filter argument must be a mapping"))
              else .ok Option.none
            match filt with
            | .error e => .error e
            | .ok filter =>
              (buildSearchReqs vector_name with_payload rest).map fun reqs =>
                ⟨vector_name, v, limit, score_threshold, filter,
                  with_payload, false⟩ :: reqs
        | _ => .error (.raised (.exc "validation error for SearchRequest"))

/-- `search_batch`: multiple queries in one backend round trip. -/
def search_batch (collection : String) (queries : List (List (String × PyVal)))
    (vector_name : String) (with_payload : Bool) : ToolM σ REnv :=
  guarded
    (handler404 s!"Collection '{collection}' not found"
      fun m => s!"Failed to batch search: {m}")
    (do
      if queries.isEmpty then
        return .error "No queries provided"
      match buildSearchReqs vector_name with_payload queries with
      | .error (.envl r) => return r
      | .error (.raised e) => throwT e
      | .ok search_requests =>
        let r ← callB (.searchBatch collection search_requests)
        let results ← expectScoredBatch r
        let batch_results := results.map fun qres =>
          PyVal.list (qres.map (shapeScored with_payload false))
        return .success (.dict [("collection", .str collection),
          ("batch_results", .list batch_results),
          ("query_count", .int queries.length)]))

/-- `recommend_points`: example-based search; requires a positive example;
`negative or []` defaults the negatives. -/
def recommend_points (collection : String) (positive : List String)
    (negative : Option (List String)) (limit : Int) (score_threshold : Option Rat)
    (filter : Option (List (String × PyVal))) (vector_name : String)
    (with_payload : Bool) : ToolM σ REnv :=
  guarded
    (handler404 s!"Collection '{collection}' not found"
      fun m => s!"Failed to get recommendations: {m}")
    (do
      if positive.isEmpty then
        return .error "At least one positive example is required"
      match buildFilter filter with
      | .error e => return .error s!"Invalid filter format: {e}"
      | .ok qdrant_filter =>
        let r ← callB (.recommend collection positive (negative.getD []) limit
          score_threshold qdrant_filter vector_name with_payload)
        let results ← expectScored r
        let recommendations := results.map (shapeScored with_payload false)
        return .success (.dict [("collection", .str collection),
          ("recommendations", .list recommendations),
          ("count", .int recommendations.length),
          ("positive_examples", .list (positive.map PyVal.str)),
          ("negative_examples", .list ((negative.getD []).map PyVal.str))]))

/-! ## Maintenance (`tools/admin.py`)

`get_cluster_info` and `health_check` read the configured endpoint URL
through `get_config()`, the external configuration collaborator; it is
passed in as an explicit `Config` value.  Wall-clock reads are abstracted
(latencies render as `0.0`, timestamps as the fixed `utcnowIso`). -/

/-- Connection slice of the external configuration. -/
structure QdrantCfg where
  url : String
deriving DecidableEq, Repr

/-- The external configuration value (`get_config()`). -/
structure Config where
  qdrant : QdrantCfg
deriving DecidableEq, Repr

/-- `datetime.utcnow().isoformat()`, abstracted to a constant. -/
def utcnowIso : String := "1970-01-01T00:00:00"

/-- The bounded polling loop of `optimize_collection` with `wait=True`:
sleep 2 seconds per round up to `max_wait` seconds of accumulated waiting;
on optimizer status OK report completion, otherwise (the loop's `else`
clause) report `Optimization still in progress`. -/
def optLoop (collection : String) (result : List (String × PyVal))
    (waited max_wait : Nat) : ToolM σ (List (String × PyVal)) :=
  if waited < max_wait then do
    let _ ← callB (.sleep 2)
    let waited := waited + 2
    let r ← callB (.getCollection collection)
    let info_after ← expectCollInfo r
    if (match info_after.optimizer_status with
        | some (some s) => s == "ok"
        | _ => false) then
      return result ++ [("segments_after", optIntPy info_after.segments_count),
        ("optimization_complete", .bool true)]
    else
      optLoop collection result waited max_wait
  else
    return result ++ [("optimization_complete", .bool false),
      ("message", .str "Optimization still in progress")]
termination_by max_wait - waited
decreasing_by omega

/-- `optimize_collection`: record pre-optimization segments, force
immediate indexing via an optimizer-diff update, optionally poll. -/
def optimize_collection (collection : String) (wait : Bool) : ToolM σ REnv :=
  guarded
    (handler404 s!"Collection '{collection}' not found"
      fun m => s!"Failed to optimize collection: {m}")
    (do
      let r ← callB (.getCollection collection)
      let info_before ← expectCollInfo r
      let segments_before := info_before.segments_count
      let _ ← callB (.updateCollection collection Option.none
        (some (OptimDiff.mk (some 0) Option.none)))
      let result := [("collection", PyVal.str collection),
        ("operation", PyVal.str "optimize"),
        ("segments_before", optIntPy segments_before),
        ("optimization_triggered", PyVal.bool true)]
      if wait then
        let result ← optLoop collection result 0 60
        return .success (.dict result)
      else
        return .success (.dict result))

/-- `create_snapshot`: collection metadata plus the backend snapshot call;
an unnamed snapshot renders as `"pending"`. -/
def create_snapshot (collection : String) (wait : Bool) : ToolM σ REnv :=
  guarded
    (handler404 s!"Collection '{collection}' not found"
      fun m => s!"Failed to create snapshot: {m}")
    (do
      let r ← callB (.getCollection collection)
      let info ← expectCollInfo r
      let rs ← callB (.createSnapshot collection wait)
      let snapshot ← expectSnapshot rs
      return .success (.dict [("collection", .str collection),
        ("snapshot_name", .str (match snapshot with
          | some s => s.name
          | Option.none => "pending")),
        ("points_count", optIntPy info.points_count),
        ("created_at", .str utcnowIso),
        ("status", .str (if wait && snapshot.isSome then "completed"
          else "in_progress"))]))

/-- `list_snapshots`: pass-through listing with response normalization
(absent attributes render as `None`). -/
def list_snapshots (collection : String) : ToolM σ REnv :=
  guarded
    (handler404 s!"Collection '{collection}' not found"
      fun m => s!"Failed to list snapshots: {m}")
    (do
      let r ← callB (.listSnapshots collection)
      let snapshots ← expectSnapshots r
      let snapshot_list := snapshots.map fun snap => PyVal.dict [
        ("name", .str snap.name),
        ("size_bytes", optIntPy snap.size),
        ("creation_time", match snap.creation_time with
          | some t => .str t
          | Option.none => .none)]
      return .success (.dict [("collection", .str collection),
        ("snapshots", .list snapshot_list),
        ("count", .int snapshot_list.length)]))

/-- The per-collection aggregation loop of `get_cluster_info`: a failing
detail lookup degrades that entry to status `"error"` and the totals
skip it. -/
def clusterLoop : List String → Int → Int → List PyVal →
    ToolM σ (Int × Int × List PyVal)
  | [], total_points, total_vectors, summaries =>
    pure (total_points, total_vectors, summaries)
  | name :: rest, total_points, total_vectors, summaries => do
    let next ← tcatch
      (do
        let r ← callB (.getCollection name)
        let info ← expectCollInfo r
        pure (total_points + info.points_count.getD 0,
          total_vectors + info.vectors_count.getD 0,
          summaries ++ [PyVal.dict [("name", .str name),
            ("points", optIntPy info.points_count),
            ("status", .str (info.status.getD "unknown"))]]))
      (fun _ => pure (total_points, total_vectors,
        summaries ++ [PyVal.dict [("name", .str name),
          ("points", .int 0), ("status", .str "error")]]))
    clusterLoop rest next.1 next.2.1 next.2.2

/-- `get_cluster_info`: root-endpoint probe (failures degrade to an empty
info mapping), then aggregation over all collections. -/
def get_cluster_info (cfg : Config) : ToolM σ REnv :=
  guarded (handlerGeneric fun m => s!"Failed to get cluster info: {m}")
    (do
      let root_info ← tcatch
        (do
          let r ← callB (.httpGet (cfg.qdrant.url ++ "/") 10)
          let pr ← expectHttp r
          pure (if pr.1 == 200 then pr.2 else []))
        (fun _ => pure [])
      let rc ← callB .getCollections
      let names ← expectCollections rc
      let totals ← clusterLoop names 0 0 []
      return .success (.dict [("url", .str cfg.qdrant.url),
        ("version", dictGetD root_info "version" (.str "unknown")),
        ("title", dictGetD root_info "title" (.str "Qdrant")),
        ("collections_count", .int names.length),
        ("total_points", .int totals.1),
        ("total_vectors", .int totals.2.1),
        ("collections", .list totals.2.2)]))

/-- `health_check`: HTTP reachability probe (failure returns the
`"unhealthy"` success envelope early), then an API probe; `"healthy"`
only when both succeed, else `"degraded"`. -/
def health_check (cfg : Config) : ToolM σ REnv :=
  guarded (handlerGeneric fun m => s!"Health check failed: {m}")
    (do
      let http ← tcatch
        (do
          let r ← callB (.httpGet (cfg.qdrant.url ++ "/") 5)
          let pr ← expectHttp r
          pure (Except.ok (pr.1 == 200)))
        (fun e => pure (Except.error (REnv.success (.dict [
          ("status", .str "unhealthy"),
          ("http_ok", .bool false),
          ("error", .str (pyExcStr e)),
          ("url", .str cfg.qdrant.url)]))))
      match http with
      | .error r => return r
      | .ok http_ok =>
        let api_ok ← tcatch
          (do
            let r ← callB .getCollections
            let _ ← expectCollections r
            pure true)
          (fun _ => pure false)
        return .success (.dict [
          ("status", .str (if http_ok && api_ok then "healthy" else "degraded")),
          ("url", .str cfg.qdrant.url),
          ("http_ok", .bool http_ok),
          ("http_latency_ms", .float 0),
          ("api_ok", .bool api_ok),
          ("api_latency_ms", .float 0),
          ("timestamp", .str utcnowIso)]))

/-! ## Reference backend

A concrete instance of the backend contract (§6 of the specification) used
to state the claims that concern backend state: collections as a name-keyed
store of points.  Point-id equality is exact (`PId`); operations whose
detailed semantics no claim depends on (filter matching, search scoring,
scroll ordering) answer canonically simple responses. -/

/-- Stored state of one collection. -/
structure CollData where
  points : List StoredPoint
  vectors : List (String × VecParamsOut)

/-- Reference backend state. -/
structure BState where
  collections : List (String × CollData)

/-- Look up a collection by name. -/
def lookupColl (st : BState) (name : String) : Option CollData :=
  st.collections.lookup name

/-- Remove a collection by name. -/
def removeColl (st : BState) (name : String) : BState :=
  ⟨st.collections.filter fun p => !(p.1 == name)⟩

/-- Replace one collection's data. -/
def modColl (st : BState) (name : String) (f : CollData → CollData) : BState :=
  ⟨st.collections.map fun p => if p.1 == name then (p.1, f p.2) else p⟩

/-- Report name of a distance metric. -/
def distStr : Distance → String
  | .cosine => "Cosine"
  | .euclid => "Euclid"
  | .dot => "Dot"

/-- The collection description the reference backend reports. -/
def refInfo (cd : CollData) : CollInfo where
  status := some "green"
  points_count := some (cd.points.length : Int)
  vectors_count := some (cd.points.length : Int)
  indexed_vectors_count := some 0
  segments_count := some 1
  vectors := .named (cd.vectors.map fun p =>
    (p.1, ⟨p.2.size, some (distStr p.2.distance), some p.2.on_disk⟩))
  hnsw_config := Option.none
  optimizer_status := some (some "ok")
  payload_schema := []

/-- Upsert one point: replace the point with the same id, else append. -/
def upsertOne (pts : List StoredPoint) (q : QPoint) : List StoredPoint :=
  if pts.any fun p => p.id == PId.str q.id then
    pts.map fun p =>
      if p.id == PId.str q.id then ⟨.str q.id, some q.payload, some q.vector⟩ else p
  else pts ++ [⟨.str q.id, some q.payload, some q.vector⟩]

/-- Whether a stored point matches one of the requested (string) ids. -/
def idMatches (ids : List String) (p : StoredPoint) : Bool :=
  match p.id with
  | .str s => ids.contains s
  | .int _ => false

/-- The reference backend's behavior, one response per issued call. -/
def qstep : Step BState := fun st c =>
  match c with
  | .getCollections => .ok (.collections (st.collections.map Prod.fst), st)
  | .getCollection name =>
    match lookupColl st name with
    | some cd => .ok (.collInfo (refInfo cd), st)
    | Option.none => .error (.unexpectedResponse 404 s!"Collection {name} does not exist")
  | .createCollection name vecs _ _ =>
    match lookupColl st name with
    | some _ => .error (.unexpectedResponse 409 s!"Collection {name} already exists")
    | Option.none => .ok (.ack, ⟨st.collections ++ [(name, ⟨[], vecs⟩)]⟩)
  | .deleteCollection name => .ok (.ack, removeColl st name)
  | .updateCollection name _ _ =>
    match lookupColl st name with
    | some _ => .ok (.ack, st)
    | Option.none => .error (.unexpectedResponse 404 s!"Collection {name} does not exist")
  | .countPoints coll _ _ =>
    match lookupColl st coll with
    | some cd => .ok (.countR (cd.points.length : Int), st)
    | Option.none => .error (.unexpectedResponse 404 s!"Collection {coll} does not exist")
  | .retrieve coll ids _ _ =>
    match lookupColl st coll with
    | some cd => .ok (.pointsR (cd.points.filter (idMatches ids)), st)
    | Option.none => .error (.unexpectedResponse 404 s!"Collection {coll} does not exist")
  | .scroll coll limit _ _ _ _ =>
    match lookupColl st coll with
    | some cd => .ok (.scrollR (cd.points.take limit.toNat) Option.none, st)
    | Option.none => .error (.unexpectedResponse 404 s!"Collection {coll} does not exist")
  | .upsert coll qps _ =>
    match lookupColl st coll with
    | some _ => .ok (.ack, modColl st coll fun cd => ⟨qps.foldl upsertOne cd.points, cd.vectors⟩)
    | Option.none => .error (.unexpectedResponse 404 s!"Collection {coll} does not exist")
  | .deletePoints coll sel _ =>
    match lookupColl st coll with
    | some _ =>
      match sel with
      | Option.none => .error (.exc "points selector validation error")
      | some (.ids l) =>
        .ok (.ack, modColl st coll fun cd => ⟨cd.points.filter fun p => !(idMatches l p), cd.vectors⟩)
      | some (.filt _) => .ok (.ack, st)
    | Option.none => .error (.unexpectedResponse 404 s!"Collection {coll} does not exist")
  | .search coll _ _ _ _ _ _ _ =>
    match lookupColl st coll with
    | some _ => .ok (.scoredR [], st)
    | Option.none => .error (.unexpectedResponse 404 s!"Collection {coll} does not exist")
  | .searchBatch coll reqs =>
    match lookupColl st coll with
    | some _ => .ok (.scoredBatchR (reqs.map fun _ => []), st)
    | Option.none => .error (.unexpectedResponse 404 s!"Collection {coll} does not exist")
  | .recommend coll _ _ _ _ _ _ _ =>
    match lookupColl st coll with
    | some _ => .ok (.scoredR [], st)
    | Option.none => .error (.unexpectedResponse 404 s!"Collection {coll} does not exist")
  | .createSnapshot coll _ =>
    match lookupColl st coll with
    | some _ => .ok (.snapshotR (some ⟨"snapshot-" ++ coll, Option.none, Option.none⟩), st)
    | Option.none => .error (.unexpectedResponse 404 s!"Collection {coll} does not exist")
  | .listSnapshots coll =>
    match lookupColl st coll with
    | some _ => .ok (.snapshotsR [], st)
    | Option.none => .error (.unexpectedResponse 404 s!"Collection {coll} does not exist")
  | .httpGet _ _ => .ok (.httpR 200 [], st)
  | .sleep _ => .ok (.ack, st)

/-! ## Run lemmas -/

/-- Unfolding of `bind` in the tool monad. -/
theorem bind_run (x : ToolM σ α) (f : α → ToolM σ β) (step : Step σ) (s : ToolSt σ) :
    (x >>= f) step s =
      match x step s with
      | (.ok a, s1) => f a step s1
      | (.error e, s1) => (.error e, s1) := rfl

/-- Unfolding of `pure` in the tool monad. -/
theorem pure_run (a : α) (step : Step σ) (s : ToolSt σ) :
    (pure a : ToolM σ α) step s = (.ok a, s) := rfl

/-- The outcome of an operation is an envelope carrying status
`"success"` with a data payload or status `"error"` with a message. -/
def IsEnvelope (out : Except PyExc REnv × ToolSt σ) : Prop :=
  ∃ env : REnv, out.1 = .ok env ∧
    ((env.status = "success" ∧ ∃ d, env = .success d) ∨
     (env.status = "error" ∧ ∃ m, env = .error m))

/-- Everything the outermost `try/except` wraps ends as an envelope. -/
theorem guarded_isEnvelope (h : PyExc → REnv) (body : ToolM σ REnv)
    (step : Step σ) (s : ToolSt σ) : IsEnvelope (guarded h body step s) := by
  unfold IsEnvelope guarded
  rcases hb : body step s with ⟨r, s1⟩
  cases r with
  | ok env =>
    refine ⟨env, rfl, ?_⟩
    cases env with
    | success d => exact Or.inl ⟨rfl, d, rfl⟩
    | error m => exact Or.inr ⟨rfl, m, rfl⟩
  | error e =>
    refine ⟨h e, rfl, ?_⟩
    cases henv : h e with
    | success d => exact Or.inl ⟨by rw [REnv.status], d, rfl⟩
    | error m => exact Or.inr ⟨by rw [REnv.status], m, rfl⟩

/-- C1: every operation exposed by the tool layer (the five collection
tools, five point tools, three search tools, and five admin tools), on
every input and under every backend behavior (including arbitrary raised
faults), returns a success envelope with status `"success"` and a data
payload or an error envelope with status `"error"` and a message; no
input makes an exception propagate out of the operation. -/
theorem c1_every_operation_returns_envelope :
    (∀ (σ : Type) (step : Step σ) (s : ToolSt σ),
      IsEnvelope (list_collections step s)) ∧
    (∀ (σ : Type) (step : Step σ) (s : ToolSt σ) (name : String) (vs : Int)
      (dist : String) (od : Bool) (hm he : Int) (sp : Bool),
      IsEnvelope (create_collection name vs dist od hm he sp step s)) ∧
    (∀ (σ : Type) (step : Step σ) (s : ToolSt σ) (name : String) (confirm : Bool),
      IsEnvelope (delete_collection name confirm step s)) ∧
    (∀ (σ : Type) (step : Step σ) (s : ToolSt σ) (name : String),
      IsEnvelope (get_collection_info name step s)) ∧
    (∀ (σ : Type) (step : Step σ) (s : ToolSt σ) (name : String)
      (a b c d : Option Int),
      IsEnvelope (update_collection name a b c d step s)) ∧
    (∀ (σ : Type) (step : Step σ) (s : ToolSt σ) (coll : String) (ex : Bool)
      (filter : Option (List (String × PyVal))),
      IsEnvelope (count_points coll ex filter step s)) ∧
    (∀ (σ : Type) (step : Step σ) (s : ToolSt σ) (coll : String)
      (ids : List String) (wp wv : Bool),
      IsEnvelope (get_points coll ids wp wv step s)) ∧
    (∀ (σ : Type) (step : Step σ) (s : ToolSt σ) (coll : String) (limit : Int)
      (offset : Option String) (filter : Option (List (String × PyVal))) (wp wv : Bool),
      IsEnvelope (scroll_points coll limit offset filter wp wv step s)) ∧
    (∀ (σ : Type) (step : Step σ) (s : ToolSt σ) (coll : String)
      (points : List (List (String × PyVal))) (wait : Bool),
      IsEnvelope (upsert_points coll points wait step s)) ∧
    (∀ (σ : Type) (step : Step σ) (s : ToolSt σ) (coll : String)
      (ids : Option (List String)) (filter : Option (List (String × PyVal)))
      (wait : Bool),
      IsEnvelope (delete_points coll ids filter wait step s)) ∧
    (∀ (σ : Type) (step : Step σ) (s : ToolSt σ) (coll : String) (v : List Rat)
      (limit : Int) (thr : Option Rat) (filter : Option (List (String × PyVal)))
      (vn : String) (wp wv : Bool),
      IsEnvelope (search_vectors coll v limit thr filter vn wp wv step s)) ∧
    (∀ (σ : Type) (step : Step σ) (s : ToolSt σ) (coll : String)
      (queries : List (List (String × PyVal))) (vn : String) (wp : Bool),
      IsEnvelope (search_batch coll queries vn wp step s)) ∧
    (∀ (σ : Type) (step : Step σ) (s : ToolSt σ) (coll : String)
      (pos : List String) (neg : Option (List String)) (limit : Int)
      (thr : Option Rat) (filter : Option (List (String × PyVal))) (vn : String)
      (wp : Bool),
      IsEnvelope (recommend_points coll pos neg limit thr filter vn wp step s)) ∧
    (∀ (σ : Type) (step : Step σ) (s : ToolSt σ) (coll : String) (wait : Bool),
      IsEnvelope (optimize_collection coll wait step s)) ∧
    (∀ (σ : Type) (step : Step σ) (s : ToolSt σ) (coll : String) (wait : Bool),
      IsEnvelope (create_snapshot coll wait step s)) ∧
    (∀ (σ : Type) (step : Step σ) (s : ToolSt σ) (coll : String),
      IsEnvelope (list_snapshots coll step s)) ∧
    (∀ (σ : Type) (step : Step σ) (s : ToolSt σ) (cfg : Config),
      IsEnvelope (get_cluster_info cfg step s)) ∧
    (∀ (σ : Type) (step : Step σ) (s : ToolSt σ) (cfg : Config),
      IsEnvelope (health_check cfg step s)) :=
  ⟨fun _ step s => guarded_isEnvelope _ _ step s,
   fun _ step s _ _ _ _ _ _ _ => guarded_isEnvelope _ _ step s,
   fun _ step s _ _ => guarded_isEnvelope _ _ step s,
   fun _ step s _ => guarded_isEnvelope _ _ step s,
   fun _ step s _ _ _ _ _ => guarded_isEnvelope _ _ step s,
   fun _ step s _ _ _ => guarded_isEnvelope _ _ step s,
   fun _ step s _ _ _ _ => guarded_isEnvelope _ _ step s,
   fun _ step s _ _ _ _ _ _ => guarded_isEnvelope _ _ step s,
   fun _ step s _ _ _ => guarded_isEnvelope _ _ step s,
   fun _ step s _ _ _ _ => guarded_isEnvelope _ _ step s,
   fun _ step s _ _ _ _ _ _ _ _ => guarded_isEnvelope _ _ step s,
   fun _ step s _ _ _ _ => guarded_isEnvelope _ _ step s,
   fun _ step s _ _ _ _ _ _ _ _ => guarded_isEnvelope _ _ step s,
   fun _ step s _ _ => guarded_isEnvelope _ _ step s,
   fun _ step s _ _ => guarded_isEnvelope _ _ step s,
   fun _ step s _ => guarded_isEnvelope _ _ step s,
   fun _ step s _ => guarded_isEnvelope _ _ step s,
   fun _ step s _ => guarded_isEnvelope _ _ step s⟩

/-! ## Association-list lemmas about the reference backend -/

/-- A collection listing contains every name that looks up successfully. -/
theorem contains_of_lookup {l : List (String × CollData)} {name : String} {cd : CollData}
    (h : l.lookup name = some cd) : (l.map Prod.fst).contains name = true := by
  induction l with
  | nil => simp [List.lookup] at h
  | cons p t ih =>
    rw [List.lookup] at h
    cases hk : name == p.1 with
    | true => simp [List.contains_cons, hk]
    | false =>
      rw [hk] at h
      simp only [List.map_cons, List.contains_cons, hk, Bool.false_or]
      exact ih h

/-- A collection listing does not contain a name that fails to look up. -/
theorem not_contains_of_lookup_none {l : List (String × CollData)} {name : String}
    (h : l.lookup name = Option.none) : (l.map Prod.fst).contains name = false := by
  induction l with
  | nil => rfl
  | cons p t ih =>
    rw [List.lookup] at h
    cases hk : name == p.1 with
    | true => rw [hk] at h; cases h
    | false =>
      rw [hk] at h
      simp only [List.map_cons, List.contains_cons, hk, Bool.false_or]
      exact ih h

/-- Filtering a name out of an association list removes its binding. -/
theorem lookup_filter_ne (l : List (String × CollData)) (name : String) :
    (l.filter fun p => !(p.1 == name)).lookup name = Option.none := by
  induction l with
  | nil => rfl
  | cons p t ih =>
    cases hk : p.1 == name with
    | true => simpa [List.filter, hk] using ih
    | false =>
      have hk2 : (name == p.1) = false := by
        simp only [beq_eq_false_iff_ne] at hk ⊢
        exact fun e => hk e.symm
      simpa [List.filter, hk, List.lookup, hk2] using ih

/-- C2: `delete_collection(X, confirm=false)` answers the distinct
confirmation-precondition error with no backend call issued and the
backend untouched (for every backend behavior); `delete_collection(X,
confirm=true)` on an existing collection issues the existence lookup,
reads the point count existing immediately prior to deletion, deletes,
reports that count in the success payload, and afterwards the collection
no longer exists. -/
theorem c2_delete_collection_confirmation :
    (∀ (σ : Type) (step : Step σ) (s : ToolSt σ) (name : String),
      delete_collection name false step s =
        (.ok (.error "Deletion requires confirm=true to prevent accidental data loss"), s)) ∧
    (∀ (st : BState) (tr : List BCall) (name : String) (cd : CollData),
      lookupColl st name = some cd →
      delete_collection name true qstep ⟨st, tr⟩ =
        (.ok (.success (.dict [
          ("message", .str s!"Collection '{name}' deleted successfully"),
          ("deleted_points", .int (cd.points.length : Int))])),
         ⟨removeColl st name,
          tr ++ [.getCollections, .getCollection name, .deleteCollection name]⟩) ∧
      lookupColl (removeColl st name) name = Option.none) := by
  refine ⟨fun σ step s name => rfl, fun st tr name cd h => ⟨?_, ?_⟩⟩
  · have hc : (st.collections.map Prod.fst).contains name = true := contains_of_lookup h
    have hm : name ∈ List.map Prod.fst st.collections := by simpa using hc
    have h' : List.lookup name st.collections = some cd := h
    simp [delete_collection, guarded, bind_run, pure_run, callB, qstep, expectCollections,
      expectCollInfo, lookupColl, hm, h', refInfo, optIntPy]
  · exact lookup_filter_ne st.collections name

/-- One stored point of the witness backend. -/
def pKB : StoredPoint :=
  ⟨.str "11111111-1111-1111-1111-111111111111", some [("topic", .str "x")],
   some (.dense [1, 0, 0, 0])⟩

/-- Witness collection data. -/
def cdKB : CollData := ⟨[pKB], [("text-dense", ⟨4, .cosine, false⟩)]⟩

/-- Witness backend state: one collection named `kb` with one point. -/
def stKB : BState := ⟨[("kb", cdKB)]⟩

/-- Witness for C2 at the concrete backend `stKB`. -/
theorem c2_delete_collection_confirmation_witness :
    delete_collection "kb" false qstep ⟨stKB, []⟩ =
      (.ok (.error "Deletion requires confirm=true to prevent accidental data loss"),
       ⟨stKB, []⟩) ∧
    (delete_collection "kb" true qstep ⟨stKB, []⟩ =
      (.ok (.success (.dict [
        ("message", .str "Collection 'kb' deleted successfully"),
        ("deleted_points", .int 1)])),
       ⟨removeColl stKB "kb",
        [.getCollections, .getCollection "kb", .deleteCollection "kb"]⟩) ∧
     lookupColl (removeColl stKB "kb") "kb" = Option.none) :=
  ⟨c2_delete_collection_confirmation.1 BState qstep ⟨stKB, []⟩ "kb",
   c2_delete_collection_confirmation.2 stKB [] "kb" cdKB rfl⟩

/-- C8: `create_collection(name=X)` when `X` already exists issues only
the pre-flight existence lookup (one `getCollections` call, no backend
create), returns the `already exists` error, and leaves the backend state
(in particular the existing collection) unmodified. -/
theorem c8_create_existing_collection_fails (st : BState) (tr : List BCall)
    (name : String) (cd : CollData) (vs : Int) (dist : String) (od : Bool)
    (hm he : Int) (sp : Bool) (h : lookupColl st name = some cd) :
    create_collection name vs dist od hm he sp qstep ⟨st, tr⟩ =
      (.ok (.error s!"Collection '{name}' already exists"),
       ⟨st, tr ++ [.getCollections]⟩) := by
  have hc : (st.collections.map Prod.fst).contains name = true := contains_of_lookup h
  have hmem : name ∈ List.map Prod.fst st.collections := by simpa using hc
  simp [create_collection, guarded, bind_run, pure_run, callB, qstep,
    expectCollections, hmem]

/-- Witness for C8: creating `kb` over the existing `kb` collection. -/
theorem c8_create_existing_collection_fails_witness :
    create_collection "kb" 4 "cosine" false 16 100 false qstep ⟨stKB, []⟩ =
      (.ok (.error "Collection 'kb' already exists"),
       ⟨stKB, [.getCollections]⟩) :=
  c8_create_existing_collection_fails stKB [] "kb" cdKB 4 "cosine" false 16 100 false rfl

/-- C3 counterexample: with both arguments supplied — `ids=[]` (an empty
list is supplied, not `None`) and a filter — deletion does not proceed by
ids: the truthiness test `if ids:` skips the empty list and the issued
backend call carries the filter selector, with `deleted_by = "filter"`. -/
theorem c3_both_supplied_counterexample :
    delete_points "kb" (some []) (some [("must", PyVal.list [])]) true qstep ⟨stKB, []⟩ =
      (.ok (.success (.dict [("collection", .str "kb"), ("operation", .str "delete"),
        ("deleted_by", .str "filter"), ("ids_count", .none)])),
       ⟨stKB, [.deletePoints "kb"
          (some (.filt ⟨some (.list []), Option.none, Option.none⟩)) true]⟩) := rfl

/-- C3 (amended): `delete_points(collection, ids=None, filter=None)`
returns the precondition error with no backend call issued (empty trace
delta, backend untouched, under every backend behavior); when both
arguments are supplied and `ids` is non-empty, the issued deletion call
carries the ids selector with each id normalized through `_to_uuid` and no
filter (ids take precedence); when `ids` is supplied as an empty list
alongside a filter, deletion proceeds by the filter selector instead. -/
theorem c3_delete_points_amended :
    (∀ (σ : Type) (step : Step σ) (s : ToolSt σ) (c : String) (w : Bool),
      delete_points c Option.none Option.none w step s =
        (.ok (.error "Either 'ids' or 'filter' must be provided"), s)) ∧
    (∀ (σ : Type) (step : Step σ) (s : ToolSt σ) (c : String) (w : Bool)
      (l : List String) (f : Option (List (String × PyVal))),
      l ≠ [] →
      (delete_points c (some l) f w step s).2.trace =
        s.trace ++ [.deletePoints c (some (.ids (l.map to_uuid))) w]) ∧
    (∀ (σ : Type) (step : Step σ) (s : ToolSt σ) (c : String) (w : Bool)
      (f : List (String × PyVal)) (qf : QFilter),
      f ≠ [] → qFilterOfKwargs f = .ok qf →
      (delete_points c (some []) (some f) w step s).2.trace =
        s.trace ++ [.deletePoints c (some (.filt qf)) w]) := by
  refine ⟨fun σ step s c w => rfl, ?_, ?_⟩
  · intro σ step s c w l f hl
    cases l with
    | nil => exact absurd rfl hl
    | cons a t =>
      simp only [delete_points, guarded, bind_run, pure_run, callB]
      cases hstep : step s.backend
          (.deletePoints c (some (.ids (to_uuid a :: t.map to_uuid))) w) with
      | ok pr => simp [bind_run, pure_run, callB, hstep]
      | error e => simp [bind_run, pure_run, callB, hstep]
  · intro σ step s c w f qf hf hqf
    cases f with
    | nil => exact absurd rfl hf
    | cons a t =>
      simp only [delete_points, guarded, bind_run, pure_run, callB, hqf]
      cases hstep : step s.backend (.deletePoints c (some (.filt qf)) w) with
      | ok pr => simp [bind_run, pure_run, callB, hstep, hqf]
      | error e => simp [bind_run, pure_run, callB, hstep, hqf]

/-- Witness for the amended C3: the precondition error, ids-precedence
with a non-empty id list next to a filter, and the empty-ids filter path,
all at concrete inputs under the reference backend. -/
theorem c3_delete_points_amended_witness :
    delete_points "kb" Option.none Option.none true qstep ⟨stKB, []⟩ =
      (.ok (.error "Either 'ids' or 'filter' must be provided"), ⟨stKB, []⟩) ∧
    (delete_points "kb" (some ["doc-1"]) (some [("must", PyVal.list [])]) true
        qstep ⟨stKB, []⟩).2.trace =
      [.deletePoints "kb" (some (.ids (["doc-1"].map to_uuid))) true] ∧
    (delete_points "kb" (some []) (some [("must", PyVal.list [])]) true
        qstep ⟨stKB, []⟩).2.trace =
      [.deletePoints "kb"
        (some (.filt ⟨some (.list []), Option.none, Option.none⟩)) true] :=
  ⟨c3_delete_points_amended.1 BState qstep ⟨stKB, []⟩ "kb" true,
   c3_delete_points_amended.2.1 BState qstep ⟨stKB, []⟩ "kb" true ["doc-1"]
     (some [("must", PyVal.list [])]) (by simp),
   c3_delete_points_amended.2.2 BState qstep ⟨stKB, []⟩ "kb" true
     [("must", PyVal.list [])] ⟨some (.list []), Option.none, Option.none⟩
     (by simp) rfl⟩

/-- C10: `delete_points` with `ids=[]` (an empty list, not `None`) and no
filter passes the `is None` precondition test and issues the backend
delete call with a null points selector under every backend behavior; in
particular, under the reference backend the result is the wrapped backend
validation failure, not the precondition error. -/
theorem c10_delete_points_empty_ids_null_selector :
    (∀ (σ : Type) (step : Step σ) (s : ToolSt σ) (c : String) (w : Bool),
      (delete_points c (some []) Option.none w step s).2.trace =
        s.trace ++ [.deletePoints c Option.none w]) ∧
    delete_points "kb" (some []) Option.none true qstep ⟨stKB, []⟩ =
      (.ok (.error "Failed to delete points: points selector validation error"),
       ⟨stKB, [.deletePoints "kb" Option.none true]⟩) := by
  refine ⟨?_, rfl⟩
  intro σ step s c w
  simp only [delete_points, guarded, bind_run, pure_run, callB]
  cases hstep : step s.backend (.deletePoints c Option.none w) with
  | ok pr => simp [bind_run, pure_run, callB, hstep]
  | error e => simp [bind_run, pure_run, callB, hstep]

/-- A backend behavior answering every scroll with an empty page and the
falsy integer resume cursor `0` (a valid qdrant point id). -/
def stepScrollZero : Step BState := fun st c =>
  match c with
  | .scroll _ _ _ _ _ _ => .ok (.scrollR [] (some (.int 0)), st)
  | _ => qstep st c

/-- C7 counterexample: the backend reports a resume cursor (`0`, a falsy
but present point id), yet the response renders `next_offset` as null
(`str(next_offset) if next_offset else None`) while `has_more` is true
(`next_offset is not None`): `next_offset` is null although the listing
is not exhausted, and `has_more` disagrees with `next_offset` being
non-null. -/
theorem c7_falsy_cursor_counterexample :
    scroll_points "kb" 2 Option.none Option.none true false stepScrollZero ⟨stKB, []⟩ =
      (.ok (.success (.dict [("collection", .str "kb"), ("points", .list []),
        ("count", .int 0), ("next_offset", .none), ("has_more", .bool true)])),
       ⟨stKB, [.scroll "kb" 2 Option.none Option.none true false]⟩) := rfl

/-- C7 (amended): on every successful `scroll_points` call the cursor
argument is passed through to the backend unchanged and never locally
fabricated; `has_more` is true exactly when the backend reports any
resume cursor (`is not None`), while `next_offset` is null exactly when
the backend reports no cursor or a falsy one (integer `0` or the empty
string), so the two can disagree on falsy cursors. -/
theorem c7_scroll_pagination_amended (σ : Type) (step : Step σ) (s : ToolSt σ)
    (c : String) (limit : Int) (offset : Option String)
    (filter : Option (List (String × PyVal))) (qf : Option QFilter)
    (wp wv : Bool) (ps : List StoredPoint) (next : Option PId) (b : σ)
    (hf : buildFilter filter = .ok qf)
    (hstep : step s.backend (.scroll c limit offset qf wp wv) =
      .ok (.scrollR ps next, b)) :
    scroll_points c limit offset filter wp wv step s =
      (.ok (.success (.dict [("collection", .str c),
        ("points", .list (ps.map (shapePoint wp wv))),
        ("count", .int ((ps.map (shapePoint wp wv)).length : Int)),
        ("next_offset", match next with
          | some cur => if pidTruthy cur then .str (pidStr cur) else .none
          | Option.none => .none),
        ("has_more", .bool next.isSome)])),
       ⟨b, s.trace ++ [.scroll c limit offset qf wp wv]⟩) := by
  simp [scroll_points, guarded, bind_run, pure_run, callB, hf, hstep, expectScroll]
  cases next <;> rfl

/-- Witness for the amended C7: the exhausted page under the reference
backend (no cursor reported, `next_offset` null, `has_more` false). -/
theorem c7_scroll_pagination_amended_witness :
    scroll_points "kb" 2 Option.none Option.none true false qstep ⟨stKB, []⟩ =
      (.ok (.success (.dict [("collection", .str "kb"),
        ("points", .list ([pKB].map (shapePoint true false))),
        ("count", .int 1),
        ("next_offset", .none),
        ("has_more", .bool false)])),
       ⟨stKB, [.scroll "kb" 2 Option.none Option.none true false]⟩) :=
  c7_scroll_pagination_amended BState qstep ⟨stKB, []⟩ "kb" 2 Option.none
    Option.none Option.none true false [pKB] Option.none stKB rfl rfl

theorem c9_distance_fixed_set :
    (∀ s : String,
      distanceEnumOf s = .cosine ∨ distanceEnumOf s = .euclid ∨ distanceEnumOf s = .dot) ∧
    (∀ s : String, pyLower s ≠ "cosine" → pyLower s ≠ "euclid" → pyLower s ≠ "dot" →
      distanceEnumOf s = .cosine) ∧
    (∀ (st : BState) (tr : List BCall) (name : String) (vs : Int) (dist : String)
      (od : Bool) (hm he : Int) (sp : Bool),
      lookupColl st name = Option.none →
      (create_collection name vs dist od hm he sp qstep ⟨st, tr⟩).2.trace =
        tr ++ [.getCollections,
          .createCollection name [("text-dense", ⟨vs, distanceEnumOf dist, od⟩)]
            (if sp then some [("text-sparse", ⟨od⟩)] else Option.none)
            ⟨some hm, some he⟩]) := by
  refine ⟨?_, ?_, ?_⟩
  · intro s
    cases h1 : pyLower s == "cosine" <;> cases h2 : pyLower s == "euclid" <;>
      cases h3 : pyLower s == "dot" <;>
      simp [distanceEnumOf, distance_map, List.lookup, h1, h2, h3]
  · intro s h1 h2 h3
    simp [distanceEnumOf, distance_map, List.lookup,
      beq_eq_false_iff_ne.mpr h1, beq_eq_false_iff_ne.mpr h2, beq_eq_false_iff_ne.mpr h3]
  · intro st tr name vs dist od hm he sp h
    have hc : (st.collections.map Prod.fst).contains name = false :=
      not_contains_of_lookup_none h
    have hmem : ¬ name ∈ List.map Prod.fst st.collections := by simpa using hc
    have h' : List.lookup name st.collections = Option.none := h
    simp [create_collection, guarded, bind_run, pure_run, callB, qstep,
      expectCollections, lookupColl, hmem, h']

theorem c9_distance_fixed_set_witness :
    distanceEnumOf "manhattan" = .cosine ∧
    (create_collection "vec2" 8 "EUCLID" false 16 100 false qstep ⟨stKB, []⟩).2.trace =
      [.getCollections,
        .createCollection "vec2" [("text-dense", ⟨8, .euclid, false⟩)]
          Option.none ⟨some 16, some 100⟩] :=
  ⟨c9_distance_fixed_set.2.1 "manhattan" (by decide) (by decide) (by decide),
   by have := c9_distance_fixed_set.2.2 stKB [] "vec2" 8 "EUCLID" false 16 100 false rfl
      simpa using this⟩

/-- C4: the identifier normalizer is total on strings (the embedding of
`_to_uuid`, whose only fallible step — the `uuid.UUID` constructor — is
caught) and, being a pure function, the same input always yields the same
result across calls; every string that the UUID constructor accepts
passes through unchanged, and every other string maps to the
deterministic name-based UUIDv5 under `NAMESPACE_DNS` (SHA-1 of the
namespace bytes plus the UTF-8 name, version/variant bits forced). -/
theorem c4_to_uuid_normalizer (s : String) :
    (parsesAsUUID s = true → to_uuid s = s) ∧
    (parsesAsUUID s = false → to_uuid s = uuid5DNS s) := by
  unfold parsesAsUUID to_uuid
  cases h : pyUUID s <;> simp [h, Except.toBool]

set_option maxRecDepth 1000000 in
/-- Witness for C4: a UUID-formatted string passes through unchanged;
`doc-1` does not parse and maps to its RFC 4122 name-based UUID — the
value CPython's `uuid.uuid5(uuid.NAMESPACE_DNS, "doc-1")` produces. -/
theorem c4_to_uuid_normalizer_witness :
    (parsesAsUUID "6ba7b810-9dad-11d1-80b4-00c04fd430c8" = true ∧
      to_uuid "6ba7b810-9dad-11d1-80b4-00c04fd430c8" =
        "6ba7b810-9dad-11d1-80b4-00c04fd430c8") ∧
    (parsesAsUUID "doc-1" = false ∧
      to_uuid "doc-1" = "eea9cb72-744e-5814-a929-652d970d86ac") :=
  ⟨⟨by decide, (c4_to_uuid_normalizer "6ba7b810-9dad-11d1-80b4-00c04fd430c8").1 (by decide)⟩,
   ⟨by decide, by rw [(c4_to_uuid_normalizer "doc-1").2 (by decide)]; decide⟩⟩

/-- A missing `id` or `vector` key fails the per-point conversion with
the whole-batch validation envelope. -/
theorem buildQPoint1_missing {p : List (String × PyVal)}
    (hbad : dictHas p "id" = false ∨ dictHas p "vector" = false) :
    buildQPoint1 p =
      .error (.envl (.error "Each point must have 'id' and 'vector' fields")) := by
  unfold buildQPoint1
  rcases hbad with h | h <;> simp [h]

/-- A failing point anywhere in the batch fails the whole conversion. -/
theorem buildQPoints_error_of_mem {points : List (List (String × PyVal))}
    (p : List (String × PyVal)) (hp : p ∈ points) (err : EarlyErr)
    (herr : buildQPoint1 p = .error err) :
    ∃ e, buildQPoints points = .error e := by
  induction points with
  | nil => cases hp
  | cons q rest ih =>
    simp only [buildQPoints]
    rcases List.mem_cons.mp hp with rfl | hp'
    · exact ⟨err, by rw [herr]⟩
    · cases hq : buildQPoint1 q with
      | error e => exact ⟨e, rfl⟩
      | ok qp =>
        obtain ⟨e, he⟩ := ih hp'
        exact ⟨e, by rw [he]; rfl⟩

/-- `handler404` always yields an error envelope. -/
theorem handler404_error (nf : String) (g : String → String) (e : PyExc) :
    ∃ m, handler404 nf g e = .error m := by
  unfold handler404
  split <;> exact ⟨_, rfl⟩

/-- The per-point conversion produces the validation envelope only for
the missing-fields message. -/
theorem buildQPoint1_envl {p : List (String × PyVal)} {r : REnv}
    (h : buildQPoint1 p = .error (.envl r)) :
    r = .error "Each point must have 'id' and 'vector' fields" := by
  unfold buildQPoint1 at h
  split at h
  · injection h with h'
    injection h' with h''
    exact h''.symm
  · split at h
    · dsimp only at h
      split at h
      · cases h
      · injection h with h'
        injection h'
    · injection h with h'
      injection h'

/-- The whole-batch conversion produces the validation envelope only for
the missing-fields message. -/
theorem buildQPoints_envl {points : List (List (String × PyVal))} {r : REnv}
    (h : buildQPoints points = .error (.envl r)) :
    r = .error "Each point must have 'id' and 'vector' fields" := by
  induction points with
  | nil => simp [buildQPoints] at h
  | cons q rest ih =>
    simp only [buildQPoints] at h
    cases hq : buildQPoint1 q with
    | error e =>
      rw [hq] at h
      injection h with h'
      exact buildQPoint1_envl (by rw [hq, h'])
    | ok qp =>
      rw [hq] at h
      cases hr : buildQPoints rest with
      | error e =>
        rw [hr] at h
        injection h with h'
        exact ih (by rw [hr, h'])
      | ok qs' =>
        rw [hr] at h
        cases h

/-- Successful whole-batch conversion succeeds pointwise, in order. -/
theorem buildQPoints_ok_pointwise {points : List (List (String × PyVal))}
    {qps : List QPoint} (h : buildQPoints points = .ok qps) :
    qps.length = points.length ∧
    ∀ i, i < points.length →
      buildQPoint1 (points.getD i []) = .ok (qps.getD i ⟨"", .dense [], []⟩) := by
  induction points generalizing qps with
  | nil =>
    simp only [buildQPoints] at h
    injection h with h'
    subst h'
    exact ⟨rfl, fun i hi => absurd hi (by simp)⟩
  | cons q rest ih =>
    simp only [buildQPoints] at h
    cases hq : buildQPoint1 q with
    | error e => rw [hq] at h; cases h
    | ok qp =>
      rw [hq] at h
      cases hr : buildQPoints rest with
      | error e => rw [hr] at h; cases h
      | ok qs' =>
        rw [hr] at h
        injection h with h'
        subst h'
        obtain ⟨hlen, hpt⟩ := ih hr
        refine ⟨by simp [hlen], fun i hi => ?_⟩
        cases i with
        | zero => simpa using hq
        | succ j => simpa using hpt j (by simpa using hi)

/-- A bare-list vector is wrapped under the default slot name. -/
theorem buildQPoint1_bare_vector {p : List (String × PyVal)} {qp : QPoint}
    {xs : List PyVal} {v : List Rat}
    (hv : p.lookup "vector" = some (.list xs)) (hf : pyFloats xs = some v)
    (h : buildQPoint1 p = .ok qp) :
    qp.vector = .named [("text-dense", v)] := by
  by_cases hid : dictHas p "id" = true
  · have hhas : dictHas p "vector" = true := by simp [dictHas, hv]
    have hg : dictGetD p "vector" .none = .list xs := by simp [dictGetD, hv]
    unfold buildQPoint1 at h
    rw [hid, hhas] at h
    simp only [Bool.not_true, Bool.or_self, Bool.false_eq_true, if_false, hg] at h
    have hvec : pyToVecVal (.dict [("text-dense", PyVal.list xs)]) =
        some (.named [("text-dense", v)]) := by
      simp [pyToVecVal, pyNamedVecs, hf]
    rw [hvec] at h
    split at h
    · injection h with h'
      rw [← h']
    · cases h
  · have hid' : dictHas p "id" = false := by simpa using hid
    rw [buildQPoint1_missing (Or.inl hid')] at h
    cases h

/-- C5: a point missing `id` or `vector` anywhere in the batch makes
`upsert_points` return an error envelope with the state and trace
untouched (no partial application, no backend write, under every backend
behavior); when the whole batch converts, exactly one backend upsert call
is issued with the converted points, and every point whose vector is a
bare list is stored under the default vector-slot name `text-dense`. -/
theorem c5_upsert_whole_batch_validation :
    (∀ (σ : Type) (step : Step σ) (s : ToolSt σ) (c : String) (w : Bool)
      (points : List (List (String × PyVal))) (p : List (String × PyVal)),
      p ∈ points → (dictHas p "id" = false ∨ dictHas p "vector" = false) →
      ∃ m, upsert_points c points w step s = (.ok (.error m), s)) ∧
    (∀ (σ : Type) (step : Step σ) (s : ToolSt σ) (c : String) (w : Bool)
      (points : List (List (String × PyVal))) (qps : List QPoint),
      points ≠ [] → buildQPoints points = .ok qps →
      (upsert_points c points w step s).2.trace = s.trace ++ [.upsert c qps w]) ∧
    (∀ (points : List (List (String × PyVal))) (qps : List QPoint),
      buildQPoints points = .ok qps →
      ∀ i xs v, i < points.length →
        (points.getD i []).lookup "vector" = some (.list xs) →
        pyFloats xs = some v →
        (qps.getD i ⟨"", .dense [], []⟩).vector = .named [("text-dense", v)]) := by
  refine ⟨?_, ?_, ?_⟩
  · intro σ step s c w points p hp hbad
    have hne : points.isEmpty = false := by
      cases points with
      | nil => cases hp
      | cons _ _ => rfl
    obtain ⟨e, he⟩ := buildQPoints_error_of_mem p hp _ (buildQPoint1_missing hbad)
    cases e with
    | envl r =>
      have hr : r = .error "Each point must have 'id' and 'vector' fields" :=
        buildQPoints_envl he
      refine ⟨"Each point must have 'id' and 'vector' fields", ?_⟩
      rw [hr] at he
      simp [upsert_points, guarded, bind_run, pure_run, hne, he]
    | raised ex =>
      obtain ⟨m, hm⟩ := handler404_error s!"Collection '{c}' not found"
        (fun m => s!"Failed to upsert points: {m}") ex
      refine ⟨m, ?_⟩
      simp [upsert_points, guarded, bind_run, pure_run, throwT, hne, he, hm]
  · intro σ step s c w points qps hne hb
    have hne' : points.isEmpty = false := by
      cases points with
      | nil => exact absurd rfl hne
      | cons _ _ => rfl
    simp only [upsert_points, guarded, bind_run, pure_run, callB, hne', hb]
    cases hstep : step s.backend (.upsert c qps w) with
    | ok pr => simp [bind_run, pure_run, callB, hstep, hne', hb]
    | error e => simp [bind_run, pure_run, callB, hstep, hne', hb]
  · intro points qps hb i xs v hi hlv hf
    exact buildQPoint1_bare_vector hlv hf ((buildQPoints_ok_pointwise hb).2 i hi)

/-- Witness batch: one valid point with a bare-list vector. -/
def ptsW : List (List (String × PyVal)) :=
  [[("id", .str "doc-1"), ("vector", .list [.float 1, .float 0, .float 0, .float 0])]]

/-- The converted witness batch. -/
def qpsW : List QPoint :=
  [⟨to_uuid "doc-1", .named [("text-dense", [1, 0, 0, 0])],
    [("original_id", .str "doc-1")]⟩]

/-- Witness for C5: a batch with a point missing `id` is rejected whole
with no backend write; the valid bare-vector batch is handed to the
backend stored under `text-dense`. -/
theorem c5_upsert_whole_batch_validation_witness :
    (∃ m, upsert_points "kb" [[("vector", PyVal.list [])]] true qstep ⟨stKB, []⟩ =
      (.ok (.error m), ⟨stKB, []⟩)) ∧
    (upsert_points "kb" ptsW true qstep ⟨stKB, []⟩).2.trace =
      [.upsert "kb" qpsW true] ∧
    (qpsW.getD 0 ⟨"", .dense [], []⟩).vector = .named [("text-dense", [1, 0, 0, 0])] :=
  ⟨c5_upsert_whole_batch_validation.1 BState qstep ⟨stKB, []⟩ "kb" true
      [[("vector", PyVal.list [])]] [("vector", PyVal.list [])]
      (by simp) (Or.inl (by rfl)),
   c5_upsert_whole_batch_validation.2.1 BState qstep ⟨stKB, []⟩ "kb" true ptsW qpsW
      (by simp [ptsW]) rfl,
   c5_upsert_whole_batch_validation.2.2 ptsW qpsW rfl 0
      [.float 1, .float 0, .float 0, .float 0] [1, 0, 0, 0]
      (by simp [ptsW]) rfl rfl⟩

/-- Setting a key makes it look up to the new value. -/
theorem dictSet_lookup (kvs : List (String × PyVal)) (k : String) (v : PyVal) :
    (dictSet kvs k v).lookup k = some v := by
  induction kvs with
  | nil => simp [dictSet, List.lookup]
  | cons p t ih =>
    by_cases hk : p.1 = k
    · simp [dictSet, hk, List.lookup]
    · have hk2 : (k == p.1) = false := beq_eq_false_iff_ne.mpr fun e => hk e.symm
      simp [dictSet, hk, List.lookup, hk2, ih]

/-- Setting a key never yields an empty dict. -/
theorem dictSet_ne_nil (kvs : List (String × PyVal)) (k : String) (v : PyVal) :
    (dictSet kvs k v).isEmpty = false := by
  cases kvs with
  | nil => rfl
  | cons p t =>
    by_cases hk : p.1 = k <;> simp [dictSet, hk]

/-- Modifying one collection rewrites its binding, leaving the lookup
structure intact. -/
theorem lookup_modColl (st : BState) (c : String) (f : CollData → CollData) :
    lookupColl (modColl st c f) c = (lookupColl st c).map f := by
  unfold lookupColl modColl
  induction st.collections with
  | nil => rfl
  | cons p t ih =>
    obtain ⟨k, cd⟩ := p
    by_cases hk : k = c
    · subst hk
      have hb : (k == k) = true := beq_self_eq_true k
      simp only [List.map_cons]
      rw [if_pos hb]
      simp [List.lookup, hb]
    · have hk2 : (c == k) = false := beq_eq_false_iff_ne.mpr fun e => hk e.symm
      have hk3 : (k == c) = false := beq_eq_false_iff_ne.mpr hk
      simp only [List.map_cons, hk3, Bool.false_eq_true, if_false]
      simpa [List.lookup, hk2] using ih

/-- No stored point of a fresh-id collection matches the new id. -/
theorem filter_fresh_nil (pts : List StoredPoint) (u : String)
    (h : pts.all (fun p => !(p.id == PId.str u)) = true) :
    pts.filter (idMatches [u]) = [] := by
  induction pts with
  | nil => rfl
  | cons p t ih =>
    simp only [List.all_cons, Bool.and_eq_true] at h
    obtain ⟨h1, h2⟩ := h
    have hm : idMatches [u] p = false := by
      unfold idMatches
      cases hp : p.id with
      | int n => rfl
      | str s =>
        rw [hp] at h1
        simp only [Bool.not_eq_true', beq_eq_false_iff_ne, ne_eq] at h1
        have hsu : (s == u) = false :=
          beq_eq_false_iff_ne.mpr fun e => h1 (by rw [e])
        simp [List.contains, List.elem, hsu]
    simp [List.filter, hm, ih h2]

/-- A fresh id appends rather than replaces. -/
theorem upsertOne_fresh (pts : List StoredPoint) (q : QPoint)
    (h : pts.all (fun p => !(p.id == PId.str q.id)) = true) :
    upsertOne pts q = pts ++ [⟨.str q.id, some q.payload, some q.vector⟩] := by
  unfold upsertOne
  have hany : (pts.any fun p => p.id == PId.str q.id) = false := by
    rw [← Bool.not_eq_true]
    intro hc
    rw [List.any_eq_true] at hc
    obtain ⟨p, hp, hpe⟩ := hc
    rw [List.all_eq_true] at h
    have := h p hp
    rw [hpe] at this
    cases this
  simp [hany]

/-! ### `uuid5DNS` always parses as a UUID -/

/-- A hexadecimal digit character from a nibble. -/
theorem isHexDig_hexCharL (n : Nat) (h : n < 16) : isHexDig (hexCharL n) = true := by
  interval_cases n <;> decide

/-- Both characters of a byte rendering are hexadecimal. -/
theorem byteHex_hex (b : Nat) : ∀ c ∈ byteHex b, isHexDig c = true := by
  intro c hc
  simp only [byteHex, List.mem_cons, List.not_mem_nil, or_false] at hc
  rcases hc with rfl | rfl
  · exact isHexDig_hexCharL _ (Nat.mod_lt _ (by norm_num))
  · exact isHexDig_hexCharL _ (Nat.mod_lt _ (by norm_num))

/-- Unfolding of `bytesHex` on cons. -/
theorem bytesHex_cons (b : Nat) (t : List Nat) :
    bytesHex (b :: t) = byteHex b ++ bytesHex t := rfl

/-- Every character of a byte-list rendering is hexadecimal. -/
theorem bytesHex_hex (bs : List Nat) : ∀ c ∈ bytesHex bs, isHexDig c = true := by
  induction bs with
  | nil => intro c hc; cases hc
  | cons b t ih =>
    intro c hc
    rw [bytesHex_cons] at hc
    rcases List.mem_append.mp hc with h | h
    · exact byteHex_hex b c h
    · exact ih c h

/-- The rendering of a byte list has twice its length. -/
theorem bytesHex_length (bs : List Nat) : (bytesHex bs).length = 2 * bs.length := by
  induction bs with
  | nil => rfl
  | cons b t ih => simp [bytesHex_cons, byteHex, ih]; omega

/-- Every character of a formatted UUID is hexadecimal or a hyphen. -/
theorem uuidFormat_chars (bs : List Nat) :
    ∀ c ∈ (uuidFormat bs).data, (isHexDig c || (c == '-')) = true := by
  intro c hc
  have hdata : (uuidFormat bs).data =
      bytesHex (bs.take 4) ++ ['-'] ++ bytesHex ((bs.drop 4).take 2) ++ ['-'] ++
      bytesHex ((bs.drop 6).take 2) ++ ['-'] ++ bytesHex ((bs.drop 8).take 2) ++ ['-'] ++
      bytesHex (bs.drop 10) := rfl
  rw [hdata] at hc
  simp only [List.mem_append, List.mem_singleton] at hc
  rcases hc with ((((((((h | rfl) | h) | rfl) | h) | rfl) | h) | rfl) | h) <;>
    first
      | exact Or.inl (bytesHex_hex _ c h) |> Bool.or_eq_true_iff.mpr
      | decide

/-- Replacement of a pattern whose first character never occurs is the
identity. -/
theorem pyReplaceGo_noop (p : Char) (ps : List Char) (fuel : Nat) (l : List Char)
    (h : ∀ c ∈ l, (c == p) = false) : pyReplaceGo (p :: ps) fuel l = l := by
  induction fuel generalizing l with
  | zero => cases l <;> rfl
  | succ f ih =>
    cases l with
    | nil => rfl
    | cons c rest =>
      have hc : (c == p) = false := h c (List.mem_cons_self c rest)
      have hpc : (p == c) = false :=
        beq_eq_false_iff_ne.mpr fun e => (beq_eq_false_iff_ne.mp hc) e.symm
      have hlw : leadsWith (p :: ps) (c :: rest) = false := by
        simp [leadsWith, hpc]
      simp [pyReplaceGo, hlw, ih rest fun c hc => h c (List.mem_cons_of_mem _ hc)]

/-- `pyReplace` of such a pattern is the identity. -/
theorem pyReplace_noop (p : Char) (ps : List Char) (l : List Char)
    (h : ∀ c ∈ l, (c == p) = false) : pyReplace (p :: ps) l = l :=
  pyReplaceGo_noop p ps l.length l h

/-- Brace stripping of a brace-free list is the identity. -/
theorem stripBraces_noop (l : List Char)
    (h : ∀ c ∈ l, ((c == '{') || (c == '}')) = false) : stripBraces l = l := by
  unfold stripBraces
  have h1 : l.dropWhile (fun c => c == '{' || c == '}') = l := by
    cases hl : l with
    | nil => rfl
    | cons c rest =>
      have := h c (hl ▸ List.mem_cons_self c rest)
      simp [List.dropWhile_cons, this]
  rw [h1]
  have h2 : l.reverse.dropWhile (fun c => c == '{' || c == '}') = l.reverse := by
    cases hl : l.reverse with
    | nil => rfl
    | cons c rest =>
      have hcm : c ∈ l := by
        rw [← List.mem_reverse, hl]
        exact List.mem_cons_self c rest
      have := h c hcm
      simp [List.dropWhile_cons, this]
  rw [h2, List.reverse_reverse]

/-- Hyphen replacement is a filter. -/
theorem pyReplaceGo_hyphen (fuel : Nat) (l : List Char) (hfuel : l.length ≤ fuel) :
    pyReplaceGo ['-'] fuel l = l.filter (fun c => !(c == '-')) := by
  induction fuel generalizing l with
  | zero =>
    cases l with
    | nil => rfl
    | cons c rest => simp at hfuel
  | succ f ih =>
    cases l with
    | nil => rfl
    | cons c rest =>
      have hrest : rest.length ≤ f := by simpa using hfuel
      cases hc : ('-' == c) with
      | true =>
        have hc2 : (c == '-') = true := by
          have := eq_of_beq hc
          simp [← this]
        simp [pyReplaceGo, leadsWith, hc, List.filter, hc2, ih rest hrest]
      | false =>
        have hc2 : (c == '-') = false :=
          beq_eq_false_iff_ne.mpr fun e => (beq_eq_false_iff_ne.mp hc) e.symm
        simp [pyReplaceGo, leadsWith, hc, List.filter, hc2, ih rest hrest]

/-- `pyReplace` of the hyphen pattern is a filter. -/
theorem pyReplace_hyphen (l : List Char) :
    pyReplace ['-'] l = l.filter (fun c => !(c == '-')) :=
  pyReplaceGo_hyphen l.length l le_rfl

/-- Hexadecimal digit values are nibbles. -/
theorem hexVal_lt (c : Char) (h : isHexDig c = true) : hexVal c < 16 := by
  unfold isHexDig at h
  unfold hexVal
  by_cases h09 : ('0' ≤ c && c ≤ '9') = true
  · obtain ⟨x, y⟩ := Bool.and_eq_true_iff.mp h09
    have l1 : 48 ≤ c.toNat := by simpa [Char.le_def] using of_decide_eq_true x
    have l2 : c.toNat ≤ 57 := by simpa [Char.le_def] using of_decide_eq_true y
    rw [if_pos h09]
    omega
  · rw [if_neg h09]
    by_cases haf : ('a' ≤ c && c ≤ 'f') = true
    · obtain ⟨x, y⟩ := Bool.and_eq_true_iff.mp haf
      have l1 : 97 ≤ c.toNat := by simpa [Char.le_def] using of_decide_eq_true x
      have l2 : c.toNat ≤ 102 := by simpa [Char.le_def] using of_decide_eq_true y
      rw [if_pos haf]
      omega
    · rw [if_neg haf]
      have hAF : ('A' ≤ c && c ≤ 'F') = true := by
        rcases Bool.or_eq_true_iff.mp h with h2 | hAF
        · rcases Bool.or_eq_true_iff.mp h2 with a | b
          · exact absurd a h09
          · exact absurd b haf
        · exact hAF
      obtain ⟨x, y⟩ := Bool.and_eq_true_iff.mp hAF
      have l1 : 65 ≤ c.toNat := by simpa [Char.le_def] using of_decide_eq_true x
      have l2 : c.toNat ≤ 70 := by simpa [Char.le_def] using of_decide_eq_true y
      omega

theorem hexRun_all_hex (l : List Char) (acc : Nat)
    (h : ∀ c ∈ l, isHexDig c = true) :
    ∃ n, hexRun l acc true = some n ∧ n < (acc + 1) * 16 ^ l.length := by
  induction l generalizing acc with
  | nil => exact ⟨acc, rfl, by simp⟩
  | cons c rest ih =>
    have hc := h c (List.mem_cons_self c rest)
    have hcu : ¬ c = '_' := fun e => by subst e; exact absurd hc (by decide)
    unfold hexRun
    split
    next h1 => exact absurd (by assumption : c :: rest = []) (by simp)
    next h1 => exact absurd (by assumption : c :: rest = []) (by simp)
    next x h1 =>
      injection x with a b
      exact absurd a hcu
    next c' x h1 h2 =>
      rename_i A u v w
      obtain ⟨hca, hra⟩ : c = c' ∧ rest = x := by
        injection h1 with a b
        exact ⟨a, b⟩
      subst hca
      subst hra
      rw [if_pos hc]
      obtain ⟨n, hn, hb⟩ := ih (A * 16 + hexVal c)
        (fun d hd => h d (List.mem_cons_of_mem _ hd))
      refine ⟨n, hn, ?_⟩
      have hv : hexVal c ≤ 15 := Nat.lt_succ_iff.mp (hexVal_lt c hc)
      have hpow : (16 : ℕ) ^ (c :: rest).length = 16 * 16 ^ rest.length := by
        rw [List.length_cons, pow_succ]
        ring
      rw [hpow]
      have hstep : A * 16 + hexVal c + 1 ≤ (A + 1) * 16 := by omega
      calc n < (A * 16 + hexVal c + 1) * 16 ^ rest.length := hb
        _ ≤ ((A + 1) * 16) * 16 ^ rest.length := Nat.mul_le_mul_right _ hstep
        _ = (A + 1) * (16 * 16 ^ rest.length) := by ring

/-- Hexadecimal digits are not Python whitespace. -/
theorem hex_not_space {c : Char} (h : isHexDig c = true) : isPySpace c = false := by
  cases hs : isPySpace c with
  | false => rfl
  | true =>
    exfalso
    unfold isPySpace at hs
    simp only [Bool.or_eq_true] at hs
    rcases hs with ((((h1 | h2) | h3) | h4) | h5) | h6
    · exact absurd h (by rw [eq_of_beq h1]; decide)
    · exact absurd h (by rw [eq_of_beq h2]; decide)
    · exact absurd h (by rw [eq_of_beq h3]; decide)
    · exact absurd h (by rw [eq_of_beq h4]; decide)
    · exact absurd h (by rw [eq_of_beq h5]; decide)
    · exact absurd h (by rw [eq_of_beq h6]; decide)

/-- Dropping under an everywhere-false predicate is the identity. -/
theorem dropWhile_noop (p : Char → Bool) (l : List Char)
    (h : ∀ c ∈ l, p c = false) : l.dropWhile p = l := by
  cases l with
  | nil => rfl
  | cons c rest =>
    have := h c (List.mem_cons_self c rest)
    simp [List.dropWhile_cons, this]

/-- The leading all-hexadecimal run parses from a cold start. -/
theorem hexRun_false_all_hex (c : Char) (rest : List Char)
    (h : ∀ d ∈ c :: rest, isHexDig d = true) :
    ∃ n, hexRun (c :: rest) 0 false = some n ∧ n < 16 ^ (c :: rest).length := by
  have hc := h c (List.mem_cons_self c rest)
  have hcu : ¬ c = '_' := fun e => by subst e; exact absurd hc (by decide)
  unfold hexRun
  split
  next h1 => exact absurd (by assumption : c :: rest = []) (by simp)
  next h1 => exact absurd (by assumption : c :: rest = []) (by simp)
  next x h1 =>
    injection x with a b
    exact absurd a hcu
  next c' x h1 h2 =>
    obtain ⟨hca, hra⟩ : c = c' ∧ rest = x := by
      injection h1 with a b
      exact ⟨a, b⟩
    subst hca
    subst hra
    rw [if_pos hc]
    obtain ⟨n, hn, hb⟩ := hexRun_all_hex rest (0 * 16 + hexVal c)
      (fun d hd => h d (List.mem_cons_of_mem _ hd))
    refine ⟨n, hn, ?_⟩
    have hv : hexVal c ≤ 15 := Nat.lt_succ_iff.mp (hexVal_lt c hc)
    have hpow : (16 : ℕ) ^ (c :: rest).length = 16 * 16 ^ rest.length := by
      rw [List.length_cons, pow_succ]
      ring
    rw [hpow]
    calc n < (0 * 16 + hexVal c + 1) * 16 ^ rest.length := hb
      _ ≤ 16 * 16 ^ rest.length := Nat.mul_le_mul_right _ (by omega)

/-- Parsing the sign of a list that starts with a hexadecimal digit. -/
theorem pySign_hex (c : Char) (rest : List Char)
    (hcp : ¬ c = '+') (hcm : ¬ c = '-') :
    pySign (c :: rest) = (false, c :: rest) := by
  unfold pySign
  split
  next h1 =>
    injection h1 with a b
    exact absurd a hcp
  next h1 =>
    injection h1 with a b
    exact absurd a hcm
  next => rfl

/-- The digit part of an all-hexadecimal list is the plain digit run. -/
theorem pyHexBody_hex (c : Char) (rest : List Char)
    (h : ∀ d ∈ c :: rest, isHexDig d = true) :
    pyHexBody (c :: rest) = hexRun (c :: rest) 0 false := by
  unfold pyHexBody
  split
  next x rest2 h1 =>
    obtain ⟨hc0, hx⟩ : c = '0' ∧ rest = x :: rest2 := by
      injection h1 with a b
      exact ⟨a, b⟩
    have hxh : isHexDig x = true := h x (by rw [hx]; simp)
    have hxx : ¬ x = 'x' := fun e => by subst e; exact absurd hxh (by decide)
    have hxX : ¬ x = 'X' := fun e => by subst e; exact absurd hxh (by decide)
    have hcond : (x == 'x' || x == 'X') = false := by
      simp [beq_eq_false_iff_ne.mpr hxx, beq_eq_false_iff_ne.mpr hxX]
    rw [if_neg (by simp [hcond])]
    rw [hc0, hx]
  next => rfl

/-- An all-hexadecimal non-empty list parses under `int(_, 16)` to a
value bounded by `16 ^ length`. -/
theorem pyIntHex_hex (c : Char) (rest : List Char)
    (h : ∀ d ∈ c :: rest, isHexDig d = true) :
    ∃ n : Nat, pyIntHex (c :: rest) = some (n : Int) ∧ n < 16 ^ (c :: rest).length := by
  obtain ⟨n, hn, hb⟩ := hexRun_false_all_hex c rest h
  refine ⟨n, ?_, hb⟩
  have hcp : ¬ c = '+' := fun e => by
    subst e; exact absurd (h '+' (List.mem_cons_self _ _)) (by decide)
  have hcm : ¬ c = '-' := fun e => by
    subst e; exact absurd (h '-' (List.mem_cons_self _ _)) (by decide)
  have htrim1 : (c :: rest).dropWhile isPySpace = c :: rest :=
    dropWhile_noop _ _ fun d hd => hex_not_space (h d hd)
  have htrim2 : (c :: rest).reverse.dropWhile isPySpace = (c :: rest).reverse :=
    dropWhile_noop _ _ fun d hd => hex_not_space (h d (List.mem_reverse.mp hd))
  unfold pyIntHex
  rw [htrim1, htrim2, List.reverse_reverse]
  dsimp only
  rw [pySign_hex c rest hcp hcm]
  dsimp only
  rw [pyHexBody_hex c rest h, hn]
  rfl

/-- A UUID character (hexadecimal or hyphen) is not `u` and not a brace. -/
theorem uuidChar_ne (c : Char) (h : (isHexDig c || (c == '-')) = true) :
    (c == 'u') = false ∧ ((c == '{') || (c == '}')) = false := by
  rcases Bool.or_eq_true_iff.mp h with hh | hd
  · refine ⟨?_, ?_⟩
    · cases hb : c == 'u' with
      | false => rfl
      | true => rw [eq_of_beq hb] at hh; exact absurd hh (by decide)
    · cases hb1 : c == '{' with
      | true => rw [eq_of_beq hb1] at hh; exact absurd hh (by decide)
      | false =>
        cases hb2 : c == '}' with
        | true => rw [eq_of_beq hb2] at hh; exact absurd hh (by decide)
        | false => simp [hb1, hb2]
  · rw [eq_of_beq hd]
    exact ⟨by decide, by decide⟩

/-- Hexadecimal digits are not hyphens. -/
theorem hex_ne_hyphen (c : Char) (h : isHexDig c = true) : (!(c == '-')) = true := by
  cases hb : c == '-' with
  | false => rfl
  | true => rw [eq_of_beq hb] at h; exact absurd h (by decide)

/-- SHA-1 digests are 20 bytes. -/
theorem sha1_length (msg : List Nat) : (sha1 msg).length = 20 := by
  unfold sha1
  rcases (chunks64 (sha1Pad msg)).foldl sha1Chunk
      (0x67452301, 0xEFCDAB89, 0x98BADCFE, 0x10325476, 0xC3D2E1F0) with
    ⟨a, b, c, d, e⟩
  simp [wordBytes]

/-- Forcing version bits preserves length. -/
theorem setVersion5_length (bs : List Nat) : (setVersion5 bs).length = bs.length := by
  simp [setVersion5]

/-- The name-based UUID string always parses as a UUID. -/
theorem parsesAsUUID_uuid5DNS (s : String) : parsesAsUUID (uuid5DNS s) = true := by
  set bs := setVersion5 ((sha1 (nsDNSBytes ++ utf8Bytes s)).take 16) with hbs
  have hlen : bs.length = 16 := by
    rw [hbs, setVersion5_length, List.length_take, sha1_length]
    omega
  have hchars := uuidFormat_chars bs
  have hdata : (uuidFormat bs).data =
      bytesHex (bs.take 4) ++ ['-'] ++ bytesHex ((bs.drop 4).take 2) ++ ['-'] ++
      bytesHex ((bs.drop 6).take 2) ++ ['-'] ++ bytesHex ((bs.drop 8).take 2) ++ ['-'] ++
      bytesHex (bs.drop 10) := rfl
  have hu : ∀ c ∈ (uuidFormat bs).data, (c == 'u') = false :=
    fun c hc => (uuidChar_ne c (hchars c hc)).1
  have hbrace : ∀ c ∈ (uuidFormat bs).data, ((c == '{') || (c == '}')) = false :=
    fun c hc => (uuidChar_ne c (hchars c hc)).2
  have hrepl1 : pyReplace "urn:".data (uuidFormat bs).data = (uuidFormat bs).data :=
    pyReplace_noop 'u' "rn:".data (uuidFormat bs).data hu
  have hrepl2 : pyReplace "uuid:".data (uuidFormat bs).data = (uuidFormat bs).data :=
    pyReplace_noop 'u' "uid:".data (uuidFormat bs).data hu
  have hstrip : stripBraces (uuidFormat bs).data = (uuidFormat bs).data :=
    stripBraces_noop _ hbrace
  have hfilter : pyReplace ['-'] (uuidFormat bs).data =
      (uuidFormat bs).data.filter (fun c => !(c == '-')) :=
    pyReplace_hyphen _
  have hhexonly : ∀ c ∈ (uuidFormat bs).data.filter (fun c => !(c == '-')),
      isHexDig c = true := by
    intro c hc
    obtain ⟨hm, hp⟩ := List.mem_filter.mp hc
    rcases Bool.or_eq_true_iff.mp (hchars c hm) with hh | hd
    · exact hh
    · rw [eq_of_beq hd] at hp
      exact absurd hp (by decide)
  have hfl : ((uuidFormat bs).data.filter (fun c => !(c == '-'))).length = 32 := by
    rw [hdata]
    have t1 : (bytesHex (bs.take 4)).filter (fun c => !(c == '-')) =
        bytesHex (bs.take 4) :=
      List.filter_eq_self.mpr fun c hc => hex_ne_hyphen c (bytesHex_hex _ c hc)
    have t2 : (bytesHex ((bs.drop 4).take 2)).filter (fun c => !(c == '-')) =
        bytesHex ((bs.drop 4).take 2) :=
      List.filter_eq_self.mpr fun c hc => hex_ne_hyphen c (bytesHex_hex _ c hc)
    have t3 : (bytesHex ((bs.drop 6).take 2)).filter (fun c => !(c == '-')) =
        bytesHex ((bs.drop 6).take 2) :=
      List.filter_eq_self.mpr fun c hc => hex_ne_hyphen c (bytesHex_hex _ c hc)
    have t4 : (bytesHex ((bs.drop 8).take 2)).filter (fun c => !(c == '-')) =
        bytesHex ((bs.drop 8).take 2) :=
      List.filter_eq_self.mpr fun c hc => hex_ne_hyphen c (bytesHex_hex _ c hc)
    have t5 : (bytesHex (bs.drop 10)).filter (fun c => !(c == '-')) =
        bytesHex (bs.drop 10) :=
      List.filter_eq_self.mpr fun c hc => hex_ne_hyphen c (bytesHex_hex _ c hc)
    simp only [List.filter_append, t1, t2, t3, t4, t5]
    have hdash : List.filter (fun c => !(c == '-')) ['-'] = [] := by decide
    simp only [hdash, List.append_nil, List.nil_append, List.length_append]
    simp only [bytesHex_length, List.length_take, List.length_drop, hlen]
    norm_num
  -- the 32 hexadecimal characters parse
  have hne : (uuidFormat bs).data.filter (fun c => !(c == '-')) ≠ [] := by
    intro he
    rw [he] at hfl
    simp at hfl
  obtain ⟨c0, rest0, hcons⟩ :
      ∃ c0 rest0, (uuidFormat bs).data.filter (fun c => !(c == '-')) = c0 :: rest0 := by
    cases hx : (uuidFormat bs).data.filter (fun c => !(c == '-')) with
    | nil => exact absurd hx hne
    | cons a t => exact ⟨a, t, rfl⟩
  obtain ⟨n, hparse, hbound⟩ := pyIntHex_hex c0 rest0 (by
    intro d hd
    exact hhexonly d (hcons ▸ hd))
  unfold parsesAsUUID pyUUID
  have hshow : (uuid5DNS s).data = (uuidFormat bs).data := rfl
  rw [hshow, hrepl1, hrepl2]
  dsimp only
  rw [hstrip, hfilter, hcons]
  have hl32 : (c0 :: rest0).length = 32 := by rw [← hcons]; exact hfl
  rw [if_neg (by rw [hl32]; omega)]
  rw [hparse]
  dsimp only
  have hrange : (0 ≤ (n : Int) ∧ (n : Int) < 2 ^ 128) := by
    constructor
    · exact Int.natCast_nonneg n
    · have : (n : ℤ) < (16 : ℤ) ^ 32 := by
        rw [hl32] at hbound
        exact_mod_cast hbound
      calc (n : ℤ) < 16 ^ 32 := this
        _ = 2 ^ 128 := by norm_num
  rw [if_pos hrange]
  rfl

/-- A string the UUID constructor rejects never equals its normalized
form (the normalized form always parses). -/
theorem to_uuid_ne_of_not_uuid (s : String) (h : parsesAsUUID s = false) :
    to_uuid s ≠ s := by
  have ht : to_uuid s = uuid5DNS s := by
    unfold to_uuid
    cases hp : pyUUID s with
    | ok u =>
      exfalso
      unfold parsesAsUUID at h
      rw [hp] at h
      cases h
    | error e => rfl
  intro he
  rw [ht] at he
  have := parsesAsUUID_uuid5DNS s
  rw [he, h] at this
  cases this

/-- Running `upsert_points` on one point with a string id, bare-list
vector, and dict payload against the reference backend. -/
theorem c6_upsert_run (st : BState) (tr : List BCall) (c origId : String)
    (xs : List PyVal) (v : List Rat) (kvs : List (String × PyVal)) (cd : CollData)
    (hcoll : lookupColl st c = some cd) (hv : pyFloats xs = some v) :
    upsert_points c [[("id", .str origId), ("vector", .list xs), ("payload", .dict kvs)]]
        true qstep ⟨st, tr⟩ =
      (.ok (.success (.dict [("collection", .str c), ("upserted_count", .int 1),
        ("operation", .str "upsert")])),
       ⟨modColl st c fun cd0 =>
          ⟨upsertOne cd0.points
            ⟨to_uuid origId, .named [("text-dense", v)],
             dictSet kvs "original_id" (.str origId)⟩, cd0.vectors⟩,
        tr ++ [.upsert c
          [⟨to_uuid origId, .named [("text-dense", v)],
            dictSet kvs "original_id" (.str origId)⟩] true]⟩) := by
  have h' : List.lookup c st.collections = some cd := hcoll
  simp [upsert_points, guarded, bind_run, pure_run, callB, qstep, buildQPoints,
    buildQPoint1, dictHas, dictGetD, dictGet, List.lookup, pyStr, pyToVecVal,
    pyNamedVecs, hv, h', lookupColl, modColl, List.foldl, Except.map]

/-- After a fresh-id upsert, retrieval by that id finds exactly the new
point. -/
theorem filter_after_upsert (pts : List StoredPoint) (q : QPoint)
    (h : pts.all (fun p => !(p.id == PId.str q.id)) = true) :
    (upsertOne pts q).filter (idMatches [q.id]) =
      [⟨.str q.id, some q.payload, some q.vector⟩] := by
  rw [upsertOne_fresh pts q h, List.filter_append, filter_fresh_nil pts q.id h]
  have hkeep : idMatches [q.id] ⟨.str q.id, some q.payload, some q.vector⟩ = true := by
    simp [idMatches, List.contains, List.elem]
  simp [List.filter, hkeep]

/-- Running `get_points` for one caller id whose normalized form matches
exactly one stored point under the reference backend. -/
theorem c6_get_run (st1 : BState) (tr1 : List BCall) (c origId : String)
    (cd1 : CollData) (pl : List (String × PyVal)) (vec : VecVal)
    (hcoll1 : lookupColl st1 c = some cd1)
    (hflt : cd1.points.filter (idMatches [to_uuid origId]) =
      [⟨.str (to_uuid origId), some pl, some vec⟩])
    (hpl : pl.isEmpty = false) :
    get_points c [origId] true false qstep ⟨st1, tr1⟩ =
      (.ok (.success (.dict [("collection", .str c),
        ("points", .list [.dict [("id", .str (to_uuid origId)),
          ("payload", .dict pl)]]),
        ("found_count", .int 1), ("requested_count", .int 1)])),
       ⟨st1, tr1 ++ [.retrieve c [to_uuid origId] true false]⟩) := by
  have h' : List.lookup c st1.collections = some cd1 := hcoll1
  simp [get_points, guarded, bind_run, pure_run, callB, qstep, lookupColl, h',
    expectPoints, hflt, shapePoint, optPayloadTruthy, hpl, pidStr]

/-- C6: upserting a valid point stores the caller identifier under the
payload key `original_id` (overwriting any caller value there), so that a
following `get_points` on the caller id returns exactly one point whose
payload carries `original_id = origId` while its backend-level id is the
normalized `_to_uuid` form — which provably differs from the caller id
whenever the caller id is not itself UUID-formatted. -/
theorem c6_original_id_round_trip (st : BState) (tr tr1 : List BCall)
    (c origId : String) (xs : List PyVal) (v : List Rat)
    (kvs : List (String × PyVal)) (cd : CollData)
    (hcoll : lookupColl st c = some cd)
    (hv : pyFloats xs = some v)
    (hfresh : cd.points.all (fun p => !(p.id == PId.str (to_uuid origId))) = true) :
    upsert_points c
        [[("id", .str origId), ("vector", .list xs), ("payload", .dict kvs)]]
        true qstep ⟨st, tr⟩ =
      (.ok (.success (.dict [("collection", .str c), ("upserted_count", .int 1),
        ("operation", .str "upsert")])),
       ⟨modColl st c fun cd0 =>
          ⟨upsertOne cd0.points
            ⟨to_uuid origId, .named [("text-dense", v)],
             dictSet kvs "original_id" (.str origId)⟩, cd0.vectors⟩,
        tr ++ [.upsert c
          [⟨to_uuid origId, .named [("text-dense", v)],
            dictSet kvs "original_id" (.str origId)⟩] true]⟩) ∧
    get_points c [origId] true false qstep
        ⟨modColl st c fun cd0 =>
          ⟨upsertOne cd0.points
            ⟨to_uuid origId, .named [("text-dense", v)],
             dictSet kvs "original_id" (.str origId)⟩, cd0.vectors⟩, tr1⟩ =
      (.ok (.success (.dict [("collection", .str c),
        ("points", .list [.dict [("id", .str (to_uuid origId)),
          ("payload", .dict (dictSet kvs "original_id" (.str origId)))]]),
        ("found_count", .int 1), ("requested_count", .int 1)])),
       ⟨modColl st c fun cd0 =>
          ⟨upsertOne cd0.points
            ⟨to_uuid origId, .named [("text-dense", v)],
             dictSet kvs "original_id" (.str origId)⟩, cd0.vectors⟩,
        tr1 ++ [.retrieve c [to_uuid origId] true false]⟩) ∧
    (dictSet kvs "original_id" (.str origId)).lookup "original_id" =
      some (.str origId) ∧
    (parsesAsUUID origId = false → to_uuid origId ≠ origId) := by
  refine ⟨c6_upsert_run st tr c origId xs v kvs cd hcoll hv, ?_, 
    dictSet_lookup kvs "original_id" (.str origId),
    fun h => to_uuid_ne_of_not_uuid origId h⟩
  apply c6_get_run
  · rw [lookup_modColl, hcoll]
    rfl
  · exact filter_after_upsert cd.points
      ⟨to_uuid origId, .named [("text-dense", v)],
       dictSet kvs "original_id" (.str origId)⟩ hfresh
  · exact dictSet_ne_nil kvs "original_id" (.str origId)

/-- The witness point as converted for the backend. -/
def qpW : QPoint :=
  ⟨to_uuid "doc-1", .named [("text-dense", [1, 0, 0, 0])],
   dictSet [("topic", .str "demo")] "original_id" (.str "doc-1")⟩

/-- The witness backend state after the upsert. -/
def stAfterW : BState :=
  modColl stKB "kb" fun cd0 => ⟨upsertOne cd0.points qpW, cd0.vectors⟩

set_option maxRecDepth 1000000 in
/-- Witness for C6: upsert of id `doc-1` into `kb` followed by
`get_points(["doc-1"])` returns exactly one point whose payload maps
`original_id` to `doc-1`, under a backend-level id that differs. -/
theorem c6_original_id_round_trip_witness :
    get_points "kb" ["doc-1"] true false qstep ⟨stAfterW, []⟩ =
      (.ok (.success (.dict [("collection", .str "kb"),
        ("points", .list [.dict [("id", .str (to_uuid "doc-1")),
          ("payload", .dict
            (dictSet [("topic", .str "demo")] "original_id" (.str "doc-1")))]]),
        ("found_count", .int 1), ("requested_count", .int 1)])),
       ⟨stAfterW, [.retrieve "kb" [to_uuid "doc-1"] true false]⟩) ∧
    to_uuid "doc-1" ≠ "doc-1" := by
  have h := c6_original_id_round_trip stKB [] [] "kb" "doc-1"
    [.float 1, .float 0, .float 0, .float 0] [1, 0, 0, 0]
    [("topic", .str "demo")] cdKB rfl rfl (by decide)
  exact ⟨h.2.1, h.2.2.2 (by decide)⟩
